import Mathlib

/-!
Shallow embedding of the post-tensioned concrete floor optimizer
(`convex/optimization.ts`) and of the stress formulas in `analyze_stresses.js`.

Conventions of the embedding:
* JavaScript numbers are modelled by `ℚ` (exact rationals).  Division by zero
  yields `0` in `ℚ`; in the code paths the claims quantify over, divisors are
  nonzero, and where they may vanish we note it in the relevant doc comment.
* `Math.sqrt` is irrational, so every embedded function that the source feeds
  a square root takes an explicit square-root oracle `s : ℚ → ℚ` as its first
  argument.  Concrete witnesses instantiate `s` with `ratSqrt`, a deterministic
  rational approximation of `Math.sqrt` (six decimal digits).
* JavaScript `for (x = a; x <= b; x += step)` loops are embedded as the list
  `qLoop a b step` of exact values `a + k·step ≤ b`.
* `Array.prototype.sort` (an in-place stable sort) is modelled by
  `sortByThickness`, and the searches return the new state of the
  `ptSlabCosts` array alongside their result, which models the mutation.
-/

namespace PTOpt

attribute [local semireducible] Rat.add Rat.mul Rat.sub Rat.inv Rat.ofScientific

/-- `qRange a step n = [a, a+step, …, a+(n-1)·step]`. -/
def qRange (start step : ℚ) (n : ℕ) : List ℚ :=
  (List.range n).map (fun k : ℕ => start + (k : ℚ) * step)

/-- Number of iterations of `for (x = start; x <= stop; x += step)` in exact
arithmetic (`step > 0`). -/
def qSteps (start stop step : ℚ) : ℕ :=
  (((stop - start) / step).floor + 1).toNat

/-- The value list visited by `for (x = start; x <= stop; x += step)`. -/
def qLoop (start stop step : ℚ) : List ℚ :=
  qRange start step (qSteps start stop step)

/-- Fuel-bounded Newton iteration for the integer square root (structural
recursion on the fuel, so that the kernel can evaluate it). -/
def sqrtIter : ℕ → ℕ → ℕ → ℕ
  | 0, _, guess => guess
  | fuel + 1, n, guess =>
    let next := (guess + n / guess) / 2
    if next < guess then sqrtIter fuel n next else guess

/-- Deterministic rational approximation of `Math.sqrt` used to instantiate
the square-root oracle in concrete witnesses: `⌊√(q·10¹²)⌋ / 10⁶`. -/
def ratSqrt (q : ℚ) : ℚ :=
  if q ≤ 0 then 0
  else
    let n := (q * 10 ^ 12).floor.toNat
    ((sqrtIter n n (n / 2 + 1) : ℕ) : ℚ) / 10 ^ 6

/-- One `{thickness, costPerSf}` entry of `costParams.ptSlabCosts`. -/
structure CostPoint where
  thickness : ℚ
  costPerSf : ℚ
deriving DecidableEq, Repr

/-- The `costParameters` record consumed by the searches.
`mildSteelCostPerLb` is `Option ℚ` so that the JavaScript `undefined` case of
the `costParams.mildSteelCostPerLb || 1.20` fallback is representable
(`none` = absent). -/
structure CostParams where
  ptSlabCosts : List CostPoint
  ptFormworkCostPerSf : ℚ
  beamFormingCostPerCf : ℚ
  beamPouringCostPerCf : ℚ
  ptStrandCostPerLb : ℚ
  mildSteelCostPerLb : Option ℚ
deriving DecidableEq, Repr

/-- `x || 1.20`: the JavaScript fallback applied to the mild-steel unit cost
(`0` and `undefined` are both falsy). -/
def effectiveMildSteelCost (c : Option ℚ) : ℚ :=
  match c with
  | none => 1.20
  | some x => if x = 0 then 1.20 else x

/-- `a.thickness ≤ b.thickness`, the comparator `(a, b) => a.thickness - b.thickness`. -/
def costLe (a b : CostPoint) : Prop := a.thickness ≤ b.thickness

instance : DecidableRel costLe := fun a b => inferInstanceAs (Decidable (a.thickness ≤ b.thickness))

/-- Model of the in-place stable `Array.prototype.sort` applied to
`ptSlabCosts` with comparator `(a, b) => a.thickness - b.thickness`. -/
def sortByThickness (l : List CostPoint) : List CostPoint :=
  List.insertionSort costLe l

/-- `getConcreteBaseCost`: piecewise concrete cost premium by strength. -/
def getConcreteBaseCost (fc : ℚ) : ℚ :=
  let baseCost : ℚ := 220
  if fc ≤ 5000 then baseCost
  else
    let strengthOver5000 := min (fc - 5000) 7000
    let premiumTo12000 := (strengthOver5000 / 1000) * 15
    let premiumAbove12000 := if 12000 < fc then ((fc - 12000) / 1000) * 26 else 0
    baseCost + premiumTo12000 + premiumAbove12000

/-- Result record of `calculateTotalMildSteel`. -/
structure MildSteelResult where
  tempShrinkage : ℚ
  bonded : ℚ
  twoWay : ℚ
  governing : ℚ
  governingCase : String
deriving DecidableEq, Repr

/-- `calculateTotalMildSteel` (s = square-root oracle). -/
def calculateTotalMildSteel (s : ℚ → ℚ) (thickness span fc fy serviceStress Mcr d : ℚ) :
    MildSteelResult :=
  let minRat : ℚ := 0.0018
  let tempShrinkage := minRat * thickness * 12
  let bonded := Mcr / (1.2 * fy * d)
  let l2 := span * 12
  let As_neg := 0.00075 * thickness * l2
  let additionalAs : ℚ :=
    if 2 * s fc < serviceStress then (serviceStress * thickness * 12) / (0.5 * fy) else 0
  let twoWay := max (As_neg + additionalAs) tempShrinkage
  let governing := max tempShrinkage (max bonded twoWay)
  let governingCase :=
    if tempShrinkage < bonded ∧ twoWay < bonded then "minimum bonded (ACI 8.6.1)"
    else if tempShrinkage < twoWay ∧ bonded < twoWay then "two-way PT slab (ACI 24.4.3)"
    else "temperature/shrinkage"
  { tempShrinkage := tempShrinkage, bonded := bonded, twoWay := twoWay,
    governing := governing, governingCase := governingCase }

/-- `getConcreteModulus`. -/
def getConcreteModulus (s : ℚ → ℚ) (fc : ℚ) : ℚ := 57000 * s fc

/-- `getCoverRequirement`. -/
def getCoverRequirement (fc : ℚ) : ℚ :=
  if 5000 ≤ fc then 1.5 else if 4000 ≤ fc then 1.75 else 2.0

/-- The five stress limits of `getStressLimits`. -/
structure StressLimits where
  fci_comp : ℚ
  fci_tens : ℚ
  fc_comp_sust : ℚ
  fc_comp_total : ℚ
  fc_tens : ℚ
deriving DecidableEq, Repr

/-- `getStressLimits`. -/
def getStressLimits (s : ℚ → ℚ) (fc fci : ℚ) : StressLimits :=
  { fci_comp := 0.60 * fci
    fci_tens := 3 * s fci
    fc_comp_sust := 0.45 * fc
    fc_comp_total := 0.60 * fc
    fc_tens := 6 * s fc }

/-- Section properties of `getSectionProperties`. -/
structure SectionProps where
  A : ℚ
  I : ℚ
  St : ℚ
  Sb : ℚ
  r2 : ℚ
deriving DecidableEq, Repr

/-- `getSectionProperties` (12-inch strip of the given thickness). -/
def getSectionProperties (thickness : ℚ) : SectionProps :=
  let A := thickness * 12
  let I := (12 * thickness ^ 3) / 12
  let St := I / (thickness / 2)
  { A := A, I := I, St := St, Sb := St, r2 := I / A }

/-- `calculateTendonStress` (ACI 318-19 unbonded-tendon stress with ceilings). -/
def calculateTendonStress (fpe fc Aps b d : ℚ) : ℚ :=
  let fpu : ℚ := 270000
  let fpy := 0.9 * fpu
  let rho_p := Aps / (b * d)
  let stressTerm := min (fc / (100 * rho_p)) 30000
  let fps := fpe + 10000 + stressTerm
  min fps (min fpy (fpe + 60000))

/-- `adjustSlabCostForStrength`. -/
def adjustSlabCostForStrength (baseCost thickness fc : ℚ) : ℚ :=
  let volumePerSf := thickness / 12 / 27
  baseCost + volumePerSf * (getConcreteBaseCost fc - getConcreteBaseCost 5000)

/-- The loss-ratio tiers `fc <= 5000 ? 0.80 : … : 0.85` shared by the three
searches. -/
def lossFrac (fc : ℚ) : ℚ :=
  if fc ≤ 5000 then 0.80 else if fc ≤ 7000 then 0.82 else if fc ≤ 10000 then 0.84 else 0.85

/-- Top-fiber stress as every screening site in `optimization.ts` computes it:
`-P/A + P*e/S - M/S`. -/
def fiberStressTop (P A e S M : ℚ) : ℚ := -P / A + P * e / S - M / S

/-- Bottom-fiber stress as every screening site in `optimization.ts` computes
it: `-P/A - P*e/S + M/S`. -/
def fiberStressBot (P A e S M : ℚ) : ℚ := -P / A - P * e / S + M / S

/-- Top-fiber stress of `analyze_stresses.js`: `f_top = -P/A - P*e/St + M/St`. -/
def analyzeFTop (P A e St M : ℚ) : ℚ := -P / A - P * e / St + M / St

/-- Bottom-fiber stress of `analyze_stresses.js`: `f_bot = -P/A + P*e/Sb - M/Sb`. -/
def analyzeFBot (P A e Sb M : ℚ) : ℚ := -P / A + P * e / Sb - M / Sb

/-- One fiber of the stress screen: the code rejects when
`f < -comp` or `tens < f`, so the fiber passes otherwise. -/
def fiberOk (comp tens f : ℚ) : Bool :=
  !(f < -comp) && !(tens < f)

/-- The strain-based resistance-factor selection of the flat-plate moment
check: `none` models the `continue` of the compression-controlled branch. -/
def phiFactor (epsilon_t : ℚ) : Option ℚ :=
  if 0.005 ≤ epsilon_t then some 0.9
  else if 0.002 ≤ epsilon_t then
    some (0.65 + (epsilon_t - 0.002) * (0.9 - 0.65) / (0.005 - 0.002))
  else none

/-- The compression-block depth `a = (Aps·fps)/(0.85·fc·12)` of the
flat-plate moment check. -/
def flatPlateStressBlockDepth (fc Aps fps : ℚ) : ℚ :=
  (Aps * fps) / (0.85 * fc * 12)

/-- The tension-face strain `εt = 0.003·(d − c)/c` with `c = a/β1` of the
flat-plate moment check. -/
def flatPlateStrain (fc Aps fps d : ℚ) : ℚ :=
  let beta1 := if fc ≤ 4000 then (0.85 : ℚ) else max 0.65 (0.85 - 0.05 * (fc - 4000) / 1000)
  let a := flatPlateStressBlockDepth fc Aps fps
  let c := a / beta1
  0.003 * (d - c) / c

/-- The flat-plate moment-capacity check (`optimization.ts` lines 296–323):
`none` models the compression-controlled `continue`; `some ok` tells whether
the candidate passes `Mt ≤ φ·Mn` (the code rejects when `Mt > phiMn`). -/
def flatPlateMomentCheck (fc Aps fps d Mt : ℚ) : Option Bool :=
  match phiFactor (flatPlateStrain fc Aps fps d) with
  | none => none
  | some phi =>
    let Mn := Aps * fps * (d - flatPlateStressBlockDepth fc Aps fps / 2)
    some (!(phi * Mn < Mt))

/-- The four-fiber stress screen shared by every screening site: transfer
(initial force `Pi`, moment `Md`, limits `fci_*`) and service (effective
force `Pe`, moment `MService`, limits `fc_*`). -/
def stressScreen (limits : StressLimits) (A St Sb Pi Pe e Md MService : ℚ) : Bool :=
  fiberOk limits.fci_comp limits.fci_tens (fiberStressTop Pi A e St Md) &&
  fiberOk limits.fci_comp limits.fci_tens (fiberStressBot Pi A e Sb Md) &&
  fiberOk limits.fc_comp_total limits.fc_tens (fiberStressTop Pe A e St MService) &&
  fiberOk limits.fc_comp_total limits.fc_tens (fiberStressBot Pe A e Sb MService)

/-- The flat-plate stress screen (`optimization.ts` lines 191–279): the
service moment is `Md + 0.3·Ml`, per the `Mt_service` definition. -/
def flatPlateStressScreen (limits : StressLimits) (props : SectionProps)
    (Pi Pe e Md Ml : ℚ) : Bool :=
  let Mt_service := Md + 0.3 * Ml
  stressScreen limits props.A props.St props.Sb Pi Pe e Md Mt_service

/-- The first-bracketing-interval scan of the slab-cost interpolation loop
(`for (let i = 0; i < sortedCosts.length - 1; i++) …`). -/
def bracketScan : List CostPoint → ℚ → Option ℚ
  | p :: q :: rest, t =>
    if p.thickness ≤ t ∧ t ≤ q.thickness then
      some (p.costPerSf +
        (q.costPerSf - p.costPerSf) * (t - p.thickness) / (q.thickness - p.thickness))
    else bracketScan (q :: rest) t
  | _, _ => none

/-- The slab base-cost interpolation block shared by the three searches
(default `20`/`15`/`12`): bracketing-interval scan, then the two clamping
overrides.  On an empty table the JavaScript code throws a `TypeError`
(reading `.thickness` of `undefined`), modelled as `none`; note that it is a
runtime type error, not a descriptive input-validation error, and that a
one-point table silently clamps with no error at all. -/
def findBaseSlabCost (dflt : ℚ) (sortedCosts : List CostPoint) (t : ℚ) : Option ℚ :=
  match sortedCosts with
  | [] => none
  | p :: rest =>
    let fromLoop := (bracketScan (p :: rest) t).getD dflt
    let lastPt := rest.getLastD p
    some (if t ≤ p.thickness then p.costPerSf
          else if lastPt.thickness ≤ t then lastPt.costPerSf
          else fromLoop)

/-- The `checks` map stored on every retained design. -/
structure ChecksMap where
  moment : Bool
  deflection : Bool
  vibration : Bool
  punchingShear : Bool
  camber : Bool
deriving DecidableEq, Repr

/-- All five checks true — the literal object the searches store. -/
def ChecksMap.allTrue : ChecksMap :=
  { moment := true, deflection := true, vibration := true,
    punchingShear := true, camber := true }

/-- Cost breakdown of a flat-plate design. -/
structure FlatPlateBreakdown where
  concrete : ℚ
  formwork : ℚ
  ptStrand : ℚ
  mildSteel : ℚ
deriving DecidableEq, Repr

/-- The `mildSteelDetails` sub-record (`ratio` is named `frac` here). -/
structure MildSteelDetails where
  governingCase : String
  frac : ℚ
  weightPerSf : ℚ
  costPerSf : ℚ
deriving DecidableEq, Repr

/-- The retained flat-plate design (`bestDesign` object of
`optimizeFlatPlate`; `mildSteelRatio`/`balanceRatio` are named
`mildSteelFrac`/`balance` here). -/
structure FlatPlateDesign where
  slabThickness : ℚ
  concreteStrength : ℚ
  ptForce : ℚ
  mildSteelFrac : ℚ
  mildSteelDetails : MildSteelDetails
  totalCost : ℚ
  costBreakdown : FlatPlateBreakdown
  weightPerSf : ℚ
  prestressForce : ℚ
  eccentricity : ℚ
  balance : ℚ
  numStrands : ℤ
  checks : ChecksMap
deriving DecidableEq, Repr

/-- All feasibility checks of one flat-plate grid point
(`optimization.ts` lines 176–397): stress screen, minimum average prestress,
moment capacity, deflection, vibration, punching shear, and the repeated
minimum-prestress guard.  `false` models any `continue`. -/
def flatPlateChecksOk (s : ℚ → ℚ) (bayLength fc thickness br er : ℚ) : Bool :=
  let fci := 0.7 * fc
  let Ec := getConcreteModulus s fc
  let limits := getStressLimits s fc fci
  let props := getSectionProperties thickness
  let dead := 12.5 * thickness
  let live : ℚ := 40
  let Md := dead * bayLength * bayLength * 12 / 10
  let Ml := live * bayLength * bayLength * 12 / 10
  let Mt := Md + Ml
  let cover := getCoverRequirement fc
  let strandDiameter : ℚ := 0.5
  let emax := thickness / 2 - cover - strandDiameter / 2
  if emax < 1.0 then false else
  let e := er * emax
  let P_balance := br * Md / e
  let lf := lossFrac fc
  let Pi := P_balance / lf
  let Pe := P_balance
  if !(flatPlateStressScreen limits props Pi Pe e Md Ml) then false else
  let avgPrestress := Pe / props.A
  if avgPrestress < 175 then false else
  let d := thickness - 1.5
  let fpe := 0.74 * 270000 * lf
  let Aps := Pe / fpe
  let fps := calculateTendonStress fpe fc Aps 12 d
  match flatPlateMomentCheck fc Aps fps d Mt with
  | none => false
  | some momentOk =>
  if !momentOk then false else
  let w_live := live / 1000
  let L := bayLength
  let fr := 7.5 * s fc
  let yt := thickness / 2
  let Mcr := (fr * props.I) / yt
  let M_service := (live * L * L / 10) * 12
  let Ie :=
    if M_service ≤ (2 / 3) * Mcr then props.I
    else
      let Icr := 0.35 * props.I
      Icr + (Mcr / M_service) ^ 3 * (props.I - Icr)
  let delta_L := (5 * w_live * (L * 12) ^ 4) / (384 * Ec * Ie / 1000)
  let camber := (Pe * e * (L * 12) ^ 2) / (8 * Ec * Ie / 1000)
  let netDeflection := delta_L - 0.8 * camber
  let deflectionLimit := (L * 12) / 480
  if deflectionLimit < netDeflection then false else
  let frequency := 0.18 * s (386.4 / delta_L)
  if frequency < 5.0 then false else
  let bo := 4 * (d + 4.5)
  let lambda_s := min (s (2 / (1 + 0.004 * d))) 1.0
  let beta : ℚ := 1.0
  let alpha_s : ℚ := 40
  let vc1 := (2 + 4 / beta) * lambda_s * s fc
  let vc2 := (alpha_s * d / bo + 2) * lambda_s * s fc
  let vc3 := 4 * lambda_s * s fc
  let vcNominal := min vc1 (min vc2 vc3) + 0.3 * avgPrestress
  let phiShear : ℚ := 0.75
  let vcDesign := phiShear * vcNominal
  let vu := 3000 / (bo * d)
  if vcDesign < vu then false else
  if avgPrestress < 175 then false else
  true

/-- The flat-plate cost block and retained-design construction
(`optimization.ts` lines 399–505), evaluated for a feasible grid point.
`sortedCosts` is the state of the `ptSlabCosts` array after the in-place
sort the block performs. -/
def flatPlateDesignOf (s : ℚ → ℚ) (bayLength bayWidth : ℚ) (cp : CostParams)
    (sortedCosts : List CostPoint) (fc thickness br er : ℚ) : FlatPlateDesign :=
  let props := getSectionProperties thickness
  let dead := 12.5 * thickness
  let live : ℚ := 40
  let Md := dead * bayLength * bayLength * 12 / 10
  let Ml := live * bayLength * bayLength * 12 / 10
  let Mt_service := Md + 0.3 * Ml
  let cover := getCoverRequirement fc
  let strandDiameter : ℚ := 0.5
  let emax := thickness / 2 - cover - strandDiameter / 2
  let e := er * emax
  let Pe := br * Md / e
  let lf := lossFrac fc
  let fs_bot := fiberStressBot Pe props.A e props.Sb Mt_service
  let avgPrestress := Pe / props.A
  let d := thickness - 1.5
  let fpe := 0.74 * 270000 * lf
  let area := bayLength * bayWidth
  let baseCost := (findBaseSlabCost 20 sortedCosts thickness).getD 20
  let slabCost := adjustSlabCostForStrength baseCost thickness fc
  let fy : ℚ := 60000
  let fr_rebar := 7.5 * s fc
  let Mcr_rebar := (fr_rebar * props.I) / (thickness / 2)
  let maxTensileStress := max fs_bot 0
  let steel := calculateTotalMildSteel s thickness bayLength fc fy maxTensileStress Mcr_rebar d
  let barsPerFoot := steel.governing / 0.20
  let rebarWeightPerFt := barsPerFoot * 0.668
  let rebarWeightPerSf := rebarWeightPerFt / 1
  let totalPtForce := Pe * bayWidth
  let strandArea : ℚ := 0.153
  let forcePerStrand := fpe * strandArea
  let numStrands : ℤ := (totalPtForce / forcePerStrand).ceil
  let drapeHeight := 2 * e / 12
  let strandLength := s (bayLength * bayLength + drapeHeight * drapeHeight) * 1.02
  let strandWeight := (numStrands : ℚ) * 0.52 * strandLength
  let rebarCostPerSf := rebarWeightPerSf * effectiveMildSteelCost cp.mildSteelCostPerLb
  let totalCost := area * slabCost + area * cp.ptFormworkCostPerSf +
    strandWeight * cp.ptStrandCostPerLb + area * rebarCostPerSf
  { slabThickness := thickness
    concreteStrength := fc
    ptForce := avgPrestress
    mildSteelFrac := steel.governing / (12 * d)
    mildSteelDetails :=
      { governingCase := steel.governingCase
        frac := steel.governing / (12 * d)
        weightPerSf := rebarWeightPerSf
        costPerSf := rebarCostPerSf }
    totalCost := totalCost
    costBreakdown :=
      { concrete := area * slabCost
        formwork := area * cp.ptFormworkCostPerSf
        ptStrand := strandWeight * cp.ptStrandCostPerLb
        mildSteel := area * rebarCostPerSf }
    weightPerSf := (thickness / 12) * 150 + rebarWeightPerSf
    prestressForce := Pe
    eccentricity := e
    balance := br
    numStrands := numStrands
    checks := { moment := true, deflection := true, vibration := true,
                punchingShear := true, camber := true } }

/-- One step of a search: when a grid point passes all checks, the cost block
sorts the `ptSlabCosts` array in place and the candidate replaces the best
when strictly cheaper (`totalCost < minCost`). -/
def searchStep {α β : Type} (ok : α → Bool)
    (upd : Option β → List CostPoint → α → Option β)
    (st : Option β × List CostPoint) (a : α) : Option β × List CostPoint :=
  if ok a then
    let sorted := sortByThickness st.2
    (upd st.1 sorted a, sorted)
  else st

/-- Fold of a search over its whole parameter grid, threading the best design
found so far and the state of the `ptSlabCosts` array. -/
def searchFold {α β : Type} (ok : α → Bool)
    (upd : Option β → List CostPoint → α → Option β)
    (init : Option β × List CostPoint) (l : List α) : Option β × List CostPoint :=
  l.foldl (searchStep ok upd) init

/-- `if (totalCost < minCost) { minCost = totalCost; bestDesign = … }`:
the candidate replaces the retained best only when strictly cheaper, so the
first-found candidate wins exact cost ties. -/
def updateBest {β : Type} (cost : β → ℚ) (best : Option β) (d : β) : Option β :=
  match best with
  | none => some d
  | some b => if cost d < cost b then some d else some b

/-- `concreteStrengths` with the short-span skip rules of every search. -/
def concreteStrengthList (bayLength : ℚ) : List ℚ :=
  ([5000, 7000, 10000, 12000, 15000] : List ℚ).filter
    (fun fc => !(decide (10000 < fc) && decide (bayLength < 30)) &&
               !(decide (12000 < fc) && decide (bayLength < 40)))

/-- The flat-plate thickness loop: `max(5, ceil(span·12/50))` to `16` step `0.5`. -/
def flatPlateThicknessList (bayLength : ℚ) : List ℚ :=
  qLoop (max 5 (((bayLength * 12 / 50).ceil : ℤ) : ℚ)) 16 0.5

/-- The full flat-plate parameter grid `(fc, thickness, balanceRatio, eRatio)`
in the code's iteration order. -/
def flatPlateGrid (bayLength : ℚ) : List (ℚ × ℚ × ℚ × ℚ) :=
  (concreteStrengthList bayLength).flatMap fun fc =>
    (flatPlateThicknessList bayLength).flatMap fun t =>
      (qLoop 0.6 1.1 0.05).flatMap fun br =>
        (qLoop 0.6 0.95 0.05).map fun er => (fc, t, br, er)

/-- `optimizeFlatPlate`: exhaustive search, returning the retained best design
and the final state of the `costParams` record (whose `ptSlabCosts` array the
cost block sorts in place). -/
def optimizeFlatPlate (s : ℚ → ℚ) (bayLength bayWidth : ℚ) (costParams : CostParams) :
    Option FlatPlateDesign × CostParams :=
  let r := searchFold
    (fun p => flatPlateChecksOk s bayLength p.1 p.2.1 p.2.2.1 p.2.2.2)
    (fun best sorted p =>
      updateBest FlatPlateDesign.totalCost best
        (flatPlateDesignOf s bayLength bayWidth costParams sorted
          p.1 p.2.1 p.2.2.1 p.2.2.2))
    (none, costParams.ptSlabCosts) (flatPlateGrid bayLength)
  (r.1, { costParams with ptSlabCosts := r.2 })

/-- The slab-prestress record `{ Pe, e, avgPrestress, balanceRatio }`
(`balanceRatio` is named `balance` here). -/
structure SlabPrestress where
  Pe : ℚ
  e : ℚ
  avgPrestress : ℚ
  balance : ℚ
deriving DecidableEq, Repr

/-- The beam-prestress record `{ Pe, e }`. -/
structure BeamPrestress where
  Pe : ℚ
  e : ℚ
deriving DecidableEq, Repr

/-- One (balanceRatio, eRatio) trial of the slab-prestress search shared by
the one-way and two-way searches: stress screen plus minimum average
prestress; `none` models `continue`. -/
def slabPrestressPoint (limits : StressLimits) (slabProps : SectionProps)
    (fc Md MService emax : ℚ) (br er : ℚ) : Option SlabPrestress :=
  let e := er * emax
  let P_balance := br * Md / e
  let lf := lossFrac fc
  let Pi := P_balance / lf
  let Pe := P_balance
  if !(stressScreen limits slabProps.A slabProps.St slabProps.Sb Pi Pe e Md MService) then
    none
  else
  let avgPrestress := Pe / slabProps.A
  if avgPrestress < 175 then none
  else some { Pe := Pe, e := e, avgPrestress := avgPrestress, balance := br }

/-- One (balanceRatio, eRatio) trial of the beam-prestress search shared by
the one-way and two-way searches (stress screen only). -/
def beamPrestressPoint (limits : StressLimits) (beamA beamSt beamSb : ℚ)
    (fc Md MService emax : ℚ) (br er : ℚ) : Option BeamPrestress :=
  let e := er * emax
  let P_balance := br * Md / e
  let lf := lossFrac fc
  let Pi := P_balance / lf
  let Pe := P_balance
  if !(stressScreen limits beamA beamSt beamSb Pi Pe e Md MService) then none
  else some { Pe := Pe, e := e }

/-- The pair of prestress designs a beam-system configuration needs before
its cost is evaluated. -/
structure FeasiblePrestress where
  slabPrestress : SlabPrestress
  beamPrestress : BeamPrestress
deriving DecidableEq, Repr

/-- The double loop `for (balanceRatio …) { for (eRatio …) { …; break } }`
with early exit on the first successful trial. -/
def prestressSearch {γ : Type} (balances es : List ℚ) (f : ℚ → ℚ → Option γ) : Option γ :=
  (balances.flatMap fun br => es.map fun er => (br, er)).findSome?
    (fun p => f p.1 p.2)

/-- The feasibility part of one one-way configuration
(`optimization.ts` lines 539–695): slab sizing and prestress, beam prestress,
then the slab deflection and vibration checks.  `none` models any `continue`. -/
def oneWayEval (s : ℚ → ℚ) (bayLength bayWidth : ℚ)
    (fc beamDepth beamWidth slabThickness : ℚ) : Option FeasiblePrestress :=
  let fci := 0.7 * fc
  let Ec := getConcreteModulus s fc
  let limits := getStressLimits s fc fci
  let clearSpan := bayWidth - beamWidth / 12
  let slabProps := getSectionProperties slabThickness
  let slabDead := 12.5 * slabThickness
  let slabLive : ℚ := 40
  let Md_slab := slabDead * clearSpan * clearSpan * 12 / 10
  let Ml_slab := slabLive * clearSpan * clearSpan * 12 / 10
  let Mt_slab_service := Md_slab + 0.3 * Ml_slab
  let slabCover := getCoverRequirement fc
  let strandDiameter : ℚ := 0.375
  let emax_slab := slabThickness / 2 - slabCover - strandDiameter / 2
  if emax_slab < 0.5 then none else
  match prestressSearch (qLoop 0.6 1.1 0.1) (qLoop 0.6 0.95 0.05)
      (slabPrestressPoint limits slabProps fc Md_slab Mt_slab_service emax_slab) with
  | none => none
  | some slabP =>
  let totalDepth := beamDepth + slabThickness
  let beamWeight := (beamWidth * totalDepth / 144) * 150
  let totalDead := slabDead * bayWidth + beamWeight
  let totalLive := slabLive * bayWidth
  let Md_beam := totalDead * bayLength * bayLength * 12 / 10
  let Ml_beam := totalLive * bayLength * bayLength * 12 / 10
  let Mt_beam_service := Md_beam + 0.3 * Ml_beam
  let beamA := beamWidth * totalDepth
  let beamI := (beamWidth * totalDepth ^ 3) / 12
  let beamSt := beamI / (totalDepth / 2)
  let beamSb := beamSt
  let beamCover := getCoverRequirement fc + 0.5
  let emax_beam := totalDepth / 2 - beamCover - 1.0
  match prestressSearch (qLoop 0.7 1.1 0.1) (qLoop 0.7 0.95 0.05)
      (beamPrestressPoint limits beamA beamSt beamSb fc Md_beam Mt_beam_service emax_beam) with
  | none => none
  | some beamP =>
  let w_live := slabLive / 1000
  let L := clearSpan
  let fr := 7.5 * s fc
  let yt := slabThickness / 2
  let Mcr := (fr * slabProps.I) / yt
  let M_service := (slabLive * L * L / 10) * 12
  let Ie :=
    if M_service ≤ (2 / 3) * Mcr then slabProps.I
    else
      let Icr := 0.35 * slabProps.I
      Icr + (Mcr / M_service) ^ 3 * (slabProps.I - Icr)
  let delta_L := (5 * w_live * (L * 12) ^ 4) / (384 * Ec * Ie / 1000)
  let camber := (slabP.Pe * slabP.e * (L * 12) ^ 2) / (8 * Ec * Ie / 1000)
  let netDeflection := delta_L - 0.8 * camber
  let deflectionLimit := (L * 12) / 480
  if deflectionLimit < netDeflection then none else
  let frequency := 0.18 * s (386.4 / delta_L)
  if frequency < 5.0 then none else
  some { slabPrestress := slabP, beamPrestress := beamP }

/-- Cost breakdown of a beam-system design (one-way or two-way). -/
structure BeamBreakdown where
  concrete : ℚ
  formwork : ℚ
  beamForming : ℚ
  beamPouring : ℚ
  ptStrand : ℚ
  mildSteel : ℚ
deriving DecidableEq, Repr

/-- The retained one-way design (`bestDesign` object of `optimizeOneWayBeam`). -/
structure OneWayDesign where
  slabThickness : ℚ
  beamWidth : ℚ
  beamDepth : ℚ
  concreteStrength : ℚ
  ptForce : ℚ
  beamPtForce : ℚ
  totalCost : ℚ
  costBreakdown : BeamBreakdown
  weightPerSf : ℚ
  checks : ChecksMap
deriving DecidableEq, Repr

/-- The one-way cost block and retained-design construction
(`optimization.ts` lines 697–801), evaluated for a feasible configuration. -/
def oneWayDesignOf (s : ℚ → ℚ) (bayLength bayWidth : ℚ) (cp : CostParams)
    (sortedCosts : List CostPoint) (fc beamDepth beamWidth slabThickness : ℚ)
    (fd : FeasiblePrestress) : OneWayDesign :=
  let clearSpan := bayWidth - beamWidth / 12
  let slabProps := getSectionProperties slabThickness
  let slabDead := 12.5 * slabThickness
  let slabLive : ℚ := 40
  let Md_slab := slabDead * clearSpan * clearSpan * 12 / 10
  let Ml_slab := slabLive * clearSpan * clearSpan * 12 / 10
  let Mt_slab := Md_slab + Ml_slab
  let totalDepth := beamDepth + slabThickness
  let fr := 7.5 * s fc
  let yt := slabThickness / 2
  let Mcr := (fr * slabProps.I) / yt
  let slabArea := bayLength * bayWidth
  let beamVolume := (bayLength * beamWidth * totalDepth) / 1728
  let baseCost := (findBaseSlabCost 15 sortedCosts slabThickness).getD 15
  let slabCost := adjustSlabCostForStrength baseCost slabThickness fc
  let fy : ℚ := 60000
  let d_slab := slabThickness - 1.5
  let fs_bot_slab :=
    fiberStressBot fd.slabPrestress.Pe slabProps.A fd.slabPrestress.e slabProps.Sb Mt_slab
  let maxTensileStress := max fs_bot_slab 0
  let slabSteel :=
    calculateTotalMildSteel s slabThickness clearSpan fc fy maxTensileStress Mcr d_slab
  let slabPtForce := fd.slabPrestress.Pe * bayLength
  let beamPtForce := fd.beamPrestress.Pe
  let fpe : ℚ := 0.74 * 270000 * 0.82
  let strandArea : ℚ := 0.153
  let forcePerStrand := fpe * strandArea
  let slabStrands : ℤ := (slabPtForce / forcePerStrand).ceil
  let beamStrands : ℤ := (beamPtForce / forcePerStrand).ceil
  let slabStrandLength :=
    s (clearSpan * clearSpan + (2 * fd.slabPrestress.e / 12) ^ 2) * 1.02
  let beamStrandLength :=
    s (bayLength * bayLength + (2 * fd.beamPrestress.e / 12) ^ 2) * 1.02
  let slabStrandWeight :=
    (slabStrands : ℚ) * 0.52 * slabStrandLength * (bayLength / clearSpan)
  let beamStrandWeight := (beamStrands : ℚ) * 0.52 * beamStrandLength
  let totalStrandWeight := slabStrandWeight + beamStrandWeight
  let slabRebarWeight := slabSteel.governing * 0.668 / 0.20 * slabArea
  let beamA := beamWidth * totalDepth
  let beamRebarArea := 0.0018 * beamA / 144
  let beamRebarWeight := beamRebarArea * 490 * beamVolume
  let totalRebarWeight := slabRebarWeight + beamRebarWeight
  let concreteCost := slabArea * slabCost
  let formworkCost := slabArea * cp.ptFormworkCostPerSf
  let beamFormCost := beamVolume * cp.beamFormingCostPerCf
  let beamPourCost := beamVolume * cp.beamPouringCostPerCf
  let ptCost := totalStrandWeight * cp.ptStrandCostPerLb
  let rebarCost := totalRebarWeight * effectiveMildSteelCost cp.mildSteelCostPerLb
  let totalCost :=
    concreteCost + formworkCost + beamFormCost + beamPourCost + ptCost + rebarCost
  { slabThickness := slabThickness
    beamWidth := beamWidth
    beamDepth := totalDepth
    concreteStrength := fc
    ptForce := fd.slabPrestress.avgPrestress
    beamPtForce := fd.beamPrestress.Pe / beamA
    totalCost := totalCost
    costBreakdown :=
      { concrete := concreteCost
        formwork := formworkCost
        beamForming := beamFormCost
        beamPouring := beamPourCost
        ptStrand := ptCost
        mildSteel := rebarCost }
    weightPerSf :=
      (slabThickness / 12) * 150 + (beamVolume * 150) / slabArea + totalRebarWeight / slabArea
    checks := { moment := true, deflection := true, vibration := true,
                punchingShear := true, camber := true } }

/-- The one-way beam-depth loop: `max(12, floor(span·12/20))` to
`min(48, ceil(span·12/12))` step `2`. -/
def oneWayBeamDepthList (bayLength : ℚ) : List ℚ :=
  qLoop (max 12 (((bayLength * 12 / 20).floor : ℤ) : ℚ))
    (min 48 (((bayLength * 12 / 12).ceil : ℤ) : ℚ)) 2

/-- The one-way slab-thickness loop: `max(4, ceil(clearSpan·12/180))` to `8`
step `0.5`. -/
def oneWaySlabThicknessList (bayWidth beamWidth : ℚ) : List ℚ :=
  let clearSpan := bayWidth - beamWidth / 12
  qLoop (max 4 (((clearSpan * 12 / 180).ceil : ℤ) : ℚ)) 8 0.5

/-- The full one-way configuration grid
`(fc, beamDepth, beamWidth, slabThickness)` in the code's iteration order. -/
def oneWayGrid (bayLength bayWidth : ℚ) : List (ℚ × ℚ × ℚ × ℚ) :=
  (concreteStrengthList bayLength).flatMap fun fc =>
    (oneWayBeamDepthList bayLength).flatMap fun bd =>
      (qLoop 12 24 2).flatMap fun bw =>
        (oneWaySlabThicknessList bayWidth bw).map fun st => (fc, bd, bw, st)

/-- `optimizeOneWayBeam` (the `userBeamDepth` argument is accepted and, as in
the source, never read). -/
def optimizeOneWayBeam (s : ℚ → ℚ) (bayLength bayWidth userBeamDepth : ℚ)
    (costParams : CostParams) : Option OneWayDesign × CostParams :=
  let r := searchFold
    (fun p => (oneWayEval s bayLength bayWidth p.1 p.2.1 p.2.2.1 p.2.2.2).isSome)
    (fun best sorted p =>
      match oneWayEval s bayLength bayWidth p.1 p.2.1 p.2.2.1 p.2.2.2 with
      | none => best
      | some fd =>
        updateBest OneWayDesign.totalCost best
          (oneWayDesignOf s bayLength bayWidth costParams sorted
            p.1 p.2.1 p.2.2.1 p.2.2.2 fd))
    (none, costParams.ptSlabCosts) (oneWayGrid bayLength bayWidth)
  (r.1, { costParams with ptSlabCosts := r.2 })

/-- The feasibility part of one two-way configuration
(`optimization.ts` lines 836–1029): aspect-ratio moment split, critical
direction, slab and beam prestress, then deflection and vibration.
`none` models any `continue`. -/
def twoWayEval (s : ℚ → ℚ) (bayLength bayWidth : ℚ)
    (fc beamDepth beamWidth slabThickness : ℚ) : Option FeasiblePrestress :=
  let fci := 0.7 * fc
  let Ec := getConcreteModulus s fc
  let limits := getStressLimits s fc fci
  let clearSpanL := bayLength - beamWidth / 12
  let clearSpanW := bayWidth - beamWidth / 12
  let shortSpan := min clearSpanL clearSpanW
  let longSpan := max clearSpanL clearSpanW
  let aspect := longSpan / shortSpan
  let alphaShort := if aspect ≤ 1.0 then (0.125 : ℚ) else 0.125 * aspect ^ (-2 : ℤ)
  let alphaLong := if aspect ≤ 1.0 then (0.125 : ℚ) else 0.125 - alphaShort
  let slabProps := getSectionProperties slabThickness
  let slabDead := 12.5 * slabThickness
  let slabLive : ℚ := 40
  let Md_short := alphaShort * slabDead * shortSpan * shortSpan * 12
  let Ml_short := alphaShort * slabLive * shortSpan * shortSpan * 12
  let Mt_short := Md_short + Ml_short
  let Md_long := alphaLong * slabDead * longSpan * longSpan * 12
  let Ml_long := alphaLong * slabLive * longSpan * longSpan * 12
  let Mt_long := Md_long + Ml_long
  let Mt_critical := max Mt_short Mt_long
  let Md_critical := if Mt_short < Mt_critical then Md_long else Md_short
  let Ml_critical := if Mt_short < Mt_critical then Ml_long else Ml_short
  let Mt_critical_service := Md_critical + 0.3 * Ml_critical
  let slabCover := getCoverRequirement fc
  let strandDiameter : ℚ := 0.375
  let emax_slab := slabThickness / 2 - slabCover - strandDiameter / 2
  if emax_slab < 0.5 then none else
  match prestressSearch (qLoop 0.7 1.1 0.1) (qLoop 0.6 0.95 0.05)
      (slabPrestressPoint limits slabProps fc Md_critical Mt_critical_service emax_slab) with
  | none => none
  | some slabP =>
  let totalDepth := beamDepth + slabThickness
  let beamWeight := (beamWidth * totalDepth / 144) * 150
  let totalDeadL := slabDead * clearSpanW / 2 + beamWeight
  let totalLiveL := slabLive * clearSpanW / 2
  let Md_beamL := totalDeadL * bayLength * bayLength * 12 / 10
  let Ml_beamL := totalLiveL * bayLength * bayLength * 12 / 10
  let Mt_beamL := Md_beamL + Ml_beamL
  let totalDeadW := slabDead * clearSpanL / 2 + beamWeight
  let totalLiveW := slabLive * clearSpanL / 2
  let Md_beamW := totalDeadW * bayWidth * bayWidth * 12 / 10
  let Ml_beamW := totalLiveW * bayWidth * bayWidth * 12 / 10
  let Mt_beamW := Md_beamW + Ml_beamW
  let Mt_beam := max Mt_beamL Mt_beamW
  let Md_beam := if Mt_beamL < Mt_beam then Md_beamW else Md_beamL
  let Ml_beam := if Mt_beamL < Mt_beam then Ml_beamW else Ml_beamL
  let Mt_beam_service := Md_beam + 0.3 * Ml_beam
  let beamA := beamWidth * totalDepth
  let beamI := (beamWidth * totalDepth ^ 3) / 12
  let beamSt := beamI / (totalDepth / 2)
  let beamSb := beamSt
  let beamCover := getCoverRequirement fc + 0.5
  let emax_beam := totalDepth / 2 - beamCover - 1.0
  match prestressSearch (qLoop 0.8 1.1 0.1) (qLoop 0.7 0.95 0.05)
      (beamPrestressPoint limits beamA beamSt beamSb fc Md_beam Mt_beam_service emax_beam) with
  | none => none
  | some beamP =>
  let w_live := slabLive / 1000
  let L := shortSpan
  let fr := 7.5 * s fc
  let yt := slabThickness / 2
  let Mcr := (fr * slabProps.I) / yt
  let M_service := alphaShort * slabLive * L * L * 12
  let Ie :=
    if M_service ≤ (2 / 3) * Mcr then slabProps.I
    else
      let Icr := 0.45 * slabProps.I
      Icr + (Mcr / M_service) ^ 3 * (slabProps.I - Icr)
  let delta_L := (alphaShort * 5 * w_live * (L * 12) ^ 4) / (384 * Ec * Ie / 1000)
  let camber := (slabP.Pe * slabP.e * (L * 12) ^ 2) / (8 * Ec * Ie / 1000)
  let netDeflection := delta_L - 0.8 * camber
  let deflectionLimit := (L * 12) / 480
  if deflectionLimit < netDeflection then none else
  let frequency := 0.18 * s (386.4 / delta_L) * 1.2
  if frequency < 5.0 then none else
  some { slabPrestress := slabP, beamPrestress := beamP }

/-- `governingMoment > otherMoment ? Pe : Pe * 0.8`: full prestress force in
the governing beam direction, 80 % in the other (two-way cost block). -/
def beamDirForce (governingMoment otherMoment Pe : ℚ) : ℚ :=
  if otherMoment < governingMoment then Pe else Pe * 0.8

/-- The retained two-way design (`bestDesign` object of `optimizeTwoWayBeam`;
`aspectRatio` is named `aspect` here). -/
structure TwoWayDesign where
  slabThickness : ℚ
  beamWidth : ℚ
  beamDepth : ℚ
  concreteStrength : ℚ
  ptForce : ℚ
  beamPtForce : ℚ
  aspect : ℚ
  totalCost : ℚ
  costBreakdown : BeamBreakdown
  weightPerSf : ℚ
  checks : ChecksMap
deriving DecidableEq, Repr

/-- The two-way cost block and retained-design construction
(`optimization.ts` lines 1031–1143), evaluated for a feasible configuration. -/
def twoWayDesignOf (s : ℚ → ℚ) (bayLength bayWidth : ℚ) (cp : CostParams)
    (sortedCosts : List CostPoint) (fc beamDepth beamWidth slabThickness : ℚ)
    (fd : FeasiblePrestress) : TwoWayDesign :=
  let clearSpanL := bayLength - beamWidth / 12
  let clearSpanW := bayWidth - beamWidth / 12
  let shortSpan := min clearSpanL clearSpanW
  let longSpan := max clearSpanL clearSpanW
  let aspect := longSpan / shortSpan
  let alphaShort := if aspect ≤ 1.0 then (0.125 : ℚ) else 0.125 * aspect ^ (-2 : ℤ)
  let alphaLong := if aspect ≤ 1.0 then (0.125 : ℚ) else 0.125 - alphaShort
  let slabProps := getSectionProperties slabThickness
  let slabDead := 12.5 * slabThickness
  let slabLive : ℚ := 40
  let Md_short := alphaShort * slabDead * shortSpan * shortSpan * 12
  let Ml_short := alphaShort * slabLive * shortSpan * shortSpan * 12
  let Mt_short := Md_short + Ml_short
  let Md_long := alphaLong * slabDead * longSpan * longSpan * 12
  let Ml_long := alphaLong * slabLive * longSpan * longSpan * 12
  let Mt_long := Md_long + Ml_long
  let Mt_critical := max Mt_short Mt_long
  let totalDepth := beamDepth + slabThickness
  let beamWeight := (beamWidth * totalDepth / 144) * 150
  let totalDeadL := slabDead * clearSpanW / 2 + beamWeight
  let totalLiveL := slabLive * clearSpanW / 2
  let Md_beamL := totalDeadL * bayLength * bayLength * 12 / 10
  let Ml_beamL := totalLiveL * bayLength * bayLength * 12 / 10
  let Mt_beamL := Md_beamL + Ml_beamL
  let totalDeadW := slabDead * clearSpanL / 2 + beamWeight
  let totalLiveW := slabLive * clearSpanL / 2
  let Md_beamW := totalDeadW * bayWidth * bayWidth * 12 / 10
  let Ml_beamW := totalLiveW * bayWidth * bayWidth * 12 / 10
  let Mt_beamW := Md_beamW + Ml_beamW
  let fr := 7.5 * s fc
  let yt := slabThickness / 2
  let Mcr := (fr * slabProps.I) / yt
  let slabArea := bayLength * bayWidth
  let beamVolumeL := (bayLength * beamWidth * totalDepth) / 1728
  let beamVolumeW := (bayWidth * beamWidth * totalDepth) / 1728
  let totalBeamVolume := beamVolumeL + beamVolumeW
  let baseCost := (findBaseSlabCost 12 sortedCosts slabThickness).getD 12
  let slabCost := adjustSlabCostForStrength baseCost slabThickness fc
  let fy : ℚ := 60000
  let d_slab := slabThickness - 1.0
  let fs_bot_slab :=
    fiberStressBot fd.slabPrestress.Pe slabProps.A fd.slabPrestress.e slabProps.Sb Mt_critical
  let maxTensileStress := max fs_bot_slab 0
  let slabSteel :=
    calculateTotalMildSteel s slabThickness shortSpan fc fy maxTensileStress Mcr d_slab
  let slabPtForceShort := fd.slabPrestress.Pe * longSpan
  let slabPtForceLong := fd.slabPrestress.Pe * shortSpan * 0.8
  let beamPtForceL := beamDirForce Mt_beamL Mt_beamW fd.beamPrestress.Pe
  let beamPtForceW := beamDirForce Mt_beamW Mt_beamL fd.beamPrestress.Pe
  let fpe : ℚ := 0.74 * 270000 * 0.82
  let strandArea : ℚ := 0.153
  let forcePerStrand := fpe * strandArea
  let slabStrandsShort : ℤ := (slabPtForceShort / forcePerStrand).ceil
  let slabStrandsLong : ℤ := (slabPtForceLong / forcePerStrand).ceil
  let beamStrandsL : ℤ := (beamPtForceL / forcePerStrand).ceil
  let beamStrandsW : ℤ := (beamPtForceW / forcePerStrand).ceil
  let slabStrandWeightShort := (slabStrandsShort : ℚ) * 0.52 * shortSpan * 1.02
  let slabStrandWeightLong := (slabStrandsLong : ℚ) * 0.52 * longSpan * 1.02
  let beamStrandWeightL := (beamStrandsL : ℚ) * 0.52 * bayLength * 1.02
  let beamStrandWeightW := (beamStrandsW : ℚ) * 0.52 * bayWidth * 1.02
  let totalStrandWeight :=
    slabStrandWeightShort + slabStrandWeightLong + beamStrandWeightL + beamStrandWeightW
  let slabRebarWeight := slabSteel.governing * 0.668 / 0.20 * slabArea * 1.2
  let beamA := beamWidth * totalDepth
  let beamRebarArea := 0.0020 * beamA / 144
  let beamRebarWeight := beamRebarArea * 490 * totalBeamVolume
  let totalRebarWeight := slabRebarWeight + beamRebarWeight
  let concreteCost := slabArea * slabCost
  let formworkCost := slabArea * cp.ptFormworkCostPerSf
  let beamFormCost := totalBeamVolume * cp.beamFormingCostPerCf
  let beamPourCost := totalBeamVolume * cp.beamPouringCostPerCf
  let ptCost := totalStrandWeight * cp.ptStrandCostPerLb
  let rebarCost := totalRebarWeight * effectiveMildSteelCost cp.mildSteelCostPerLb
  let totalCost :=
    concreteCost + formworkCost + beamFormCost + beamPourCost + ptCost + rebarCost
  { slabThickness := slabThickness
    beamWidth := beamWidth
    beamDepth := totalDepth
    concreteStrength := fc
    ptForce := fd.slabPrestress.avgPrestress
    beamPtForce := fd.beamPrestress.Pe / beamA
    aspect := aspect
    totalCost := totalCost
    costBreakdown :=
      { concrete := concreteCost
        formwork := formworkCost
        beamForming := beamFormCost
        beamPouring := beamPourCost
        ptStrand := ptCost
        mildSteel := rebarCost }
    weightPerSf :=
      (slabThickness / 12) * 150 + (totalBeamVolume * 150) / slabArea +
        totalRebarWeight / slabArea
    checks := { moment := true, deflection := true, vibration := true,
                punchingShear := true, camber := true } }

/-- The two-way beam-depth loop (driven by the larger of the two spans). -/
def twoWayBeamDepthList (bayLength bayWidth : ℚ) : List ℚ :=
  let criticalSpan := max bayLength bayWidth
  qLoop (max 12 (((criticalSpan * 12 / 20).floor : ℤ) : ℚ))
    (min 48 (((criticalSpan * 12 / 12).ceil : ℤ) : ℚ)) 2

/-- The two-way slab-thickness loop: `max(3, ceil(shortSpan·12/200))` to `6`
step `0.5`. -/
def twoWaySlabThicknessList (bayLength bayWidth beamWidth : ℚ) : List ℚ :=
  let clearSpanL := bayLength - beamWidth / 12
  let clearSpanW := bayWidth - beamWidth / 12
  let shortSpan := min clearSpanL clearSpanW
  qLoop (max 3 (((shortSpan * 12 / 200).ceil : ℤ) : ℚ)) 6 0.5

/-- The full two-way configuration grid
`(fc, beamDepth, beamWidth, slabThickness)` in the code's iteration order. -/
def twoWayGrid (bayLength bayWidth : ℚ) : List (ℚ × ℚ × ℚ × ℚ) :=
  (concreteStrengthList bayLength).flatMap fun fc =>
    (twoWayBeamDepthList bayLength bayWidth).flatMap fun bd =>
      (qLoop 12 20 2).flatMap fun bw =>
        (twoWaySlabThicknessList bayLength bayWidth bw).map fun st => (fc, bd, bw, st)

/-- `optimizeTwoWayBeam` (the `userBeamDepth` argument is accepted and, as in
the source, never read). -/
def optimizeTwoWayBeam (s : ℚ → ℚ) (bayLength bayWidth userBeamDepth : ℚ)
    (costParams : CostParams) : Option TwoWayDesign × CostParams :=
  let r := searchFold
    (fun p => (twoWayEval s bayLength bayWidth p.1 p.2.1 p.2.2.1 p.2.2.2).isSome)
    (fun best sorted p =>
      match twoWayEval s bayLength bayWidth p.1 p.2.1 p.2.2.1 p.2.2.2 with
      | none => best
      | some fd =>
        updateBest TwoWayDesign.totalCost best
          (twoWayDesignOf s bayLength bayWidth costParams sorted
            p.1 p.2.1 p.2.2.1 p.2.2.2 fd))
    (none, costParams.ptSlabCosts) (twoWayGrid bayLength bayWidth)
  (r.1, { costParams with ptSlabCosts := r.2 })

/-- One row of the per-span comparison table. -/
structure ComparisonEntry where
  span : ℚ
  flatPlateCost : ℚ
  oneWayBeamCost : ℚ
  twoWayBeamCost : ℚ
deriving DecidableEq, Repr

/-- `comparisonSpans = [18, 24, 27, 30, 36, 40, 45, 49, 54, 60]`. -/
def comparisonSpans : List ℚ := [18, 24, 27, 30, 36, 40, 45, 49, 54, 60]

/-- One iteration of the comparison loop: the three searches run on the
current `costParameters` state (whose `ptSlabCosts` array they may sort in
place) and the per-span unit cost is `totalCost / (span · bayWidth)` when
feasible and the numeric sentinel `999` when not. -/
def comparisonStep (s : ℚ → ℚ) (bayWidth beamDepth : ℚ)
    (st : List ComparisonEntry × CostParams) (span : ℚ) :
    List ComparisonEntry × CostParams :=
  let fpR := optimizeFlatPlate s span bayWidth st.2
  let owR := optimizeOneWayBeam s span bayWidth beamDepth fpR.2
  let twR := optimizeTwoWayBeam s span bayWidth beamDepth owR.2
  (st.1 ++ [{ span := span
              flatPlateCost :=
                match fpR.1 with
                | some d => d.totalCost / (span * bayWidth)
                | none => 999
              oneWayBeamCost :=
                match owR.1 with
                | some d => d.totalCost / (span * bayWidth)
                | none => 999
              twoWayBeamCost :=
                match twR.1 with
                | some d => d.totalCost / (span * bayWidth)
                | none => 999 }], twR.2)

/-- The `systems.reduce((a, b) => a.cost < b.cost ? a : b)` comparison with
`cost: x?.totalCost || Infinity` (`none` models `Infinity`). -/
def optCostLt (x y : Option ℚ) : Bool :=
  match x, y with
  | some u, some v => u < v
  | some _, none => true
  | none, _ => false

/-- The `OptimizationResults` record assembled by the `optimize` handler. -/
structure OptimizationResults where
  flatPlate : Option FlatPlateDesign
  oneWayBeam : Option OneWayDesign
  twoWayBeam : Option TwoWayDesign
  optimalSystem : String
  comparisons : List ComparisonEntry

/-- The pure core of the `optimize` mutation handler: the three searches for
the requested bay, the optimal-system selection, and the ten-span comparison
table.  The `CostParams` state is threaded through every call, modelling the
in-place sorting of the shared `ptSlabCosts` array. -/
def computeOptimization (s : ℚ → ℚ) (bayLength bayWidth beamDepth : ℚ)
    (cp : CostParams) : OptimizationResults × CostParams :=
  let fpR := optimizeFlatPlate s bayLength bayWidth cp
  let owR := optimizeOneWayBeam s bayLength bayWidth beamDepth fpR.2
  let twR := optimizeTwoWayBeam s bayLength bayWidth beamDepth owR.2
  let sys1 := ("flatPlate", fpR.1.map FlatPlateDesign.totalCost)
  let sys2 := ("oneWayBeam", owR.1.map OneWayDesign.totalCost)
  let sys3 := ("twoWayBeam", twR.1.map TwoWayDesign.totalCost)
  let pick := fun (a b : String × Option ℚ) => if optCostLt a.2 b.2 then a else b
  let optimalSystem :=
    if fpR.1.isNone && owR.1.isNone && twR.1.isNone then "none"
    else (pick (pick sys1 sys2) sys3).1
  let comp := comparisonSpans.foldl (comparisonStep s bayWidth beamDepth) ([], twR.2)
  ({ flatPlate := fpR.1
     oneWayBeam := owR.1
     twoWayBeam := twR.1
     optimalSystem := optimalSystem
     comparisons := comp.1 }, comp.2)

/-- A concrete cost-parameters record: its `ptSlabCosts` array is NOT sorted
by thickness, and its mild-steel unit cost is the falsy `0`. -/
def sampleCostParams : CostParams :=
  { ptSlabCosts := [{ thickness := 8, costPerSf := 22 }, { thickness := 5, costPerSf := 18 }]
    ptFormworkCostPerSf := 5
    beamFormingCostPerCf := 2
    beamPouringCostPerCf := 3
    ptStrandCostPerLb := 1
    mildSteelCostPerLb := some 0 }

/-- The cost-parameters record with its `ptSlabCosts` array in sorted order —
the state every comparison-loop search effectively runs against, since the
first feasible candidate anywhere sorts the shared array in place and the
sort is idempotent. -/
def sortedParams (cp : CostParams) : CostParams :=
  { cp with ptSlabCosts := sortByThickness cp.ptSlabCosts }

/-- Nonnegativity of every cost input, the precondition "valid (finite,
non-negative) cost parameters". -/
def CostParamsNonneg (cp : CostParams) : Prop :=
  (∀ pt ∈ cp.ptSlabCosts, 0 ≤ pt.costPerSf) ∧
  0 ≤ cp.ptFormworkCostPerSf ∧ 0 ≤ cp.beamFormingCostPerCf ∧
  0 ≤ cp.beamPouringCostPerCf ∧ 0 ≤ cp.ptStrandCostPerLb ∧
  (∀ x ∈ cp.mildSteelCostPerLb, 0 ≤ x)

/-- Strictly ascending thickness — "sorted ascending by thickness" for an
interpolation table (duplicate thicknesses would divide by zero in the code). -/
def costLt (a b : CostPoint) : Prop := a.thickness < b.thickness

instance : DecidableRel costLt :=
  fun a b => inferInstanceAs (Decidable (a.thickness < b.thickness))

/-- Non-decreasing unit cost along the table. -/
def costUp (a b : CostPoint) : Prop := a.costPerSf ≤ b.costPerSf

instance : DecidableRel costUp :=
  fun a b => inferInstanceAs (Decidable (a.costPerSf ≤ b.costPerSf))

/-- The spec's description of the slab-cost interpolation as a real-valued
function of thickness: clamped to the first unit cost below the first knot,
linear between consecutive bracketing knots, and recursing past the first
knot (hence clamped to the last unit cost above the last knot).  This is the
function the C7 claim ascribes to the code; the bridge theorem identifies it
with `findBaseSlabCost` at every rational thickness. -/
noncomputable def interpR : List CostPoint → ℝ → ℝ
  | [], _ => 0
  | [p], _ => (p.costPerSf : ℝ)
  | p :: q :: rest, x =>
    if x ≤ (p.thickness : ℝ) then (p.costPerSf : ℝ)
    else if x ≤ (q.thickness : ℝ) then
      (p.costPerSf : ℝ) +
        ((q.costPerSf : ℝ) - (p.costPerSf : ℝ)) * (x - (p.thickness : ℝ)) /
          ((q.thickness : ℝ) - (p.thickness : ℝ))
    else interpR (q :: rest) x

/-- Concrete two-point interpolation table used to instantiate C7: lower knot. -/
def interpBot : CostPoint := { thickness := 4, costPerSf := 20 }

/-- Concrete two-point interpolation table used to instantiate C7: upper knot. -/
def interpTop : CostPoint := { thickness := 8, costPerSf := 30 }

/-- What C8 asserts of one comparison-table row for bay width `W`: the span is
one of the ten reference spans, the three per-span unit costs are non-negative
rationals (hence finite numbers, never null or NaN), and each one either is the
numeric sentinel `999` (system infeasible at that span) or equals some
design's total cost divided by the `span · bayWidth` plan area. -/
def EntryOk (W : ℚ) (e : ComparisonEntry) : Prop :=
  e.span ∈ comparisonSpans ∧
  (0 ≤ e.flatPlateCost ∧ 0 ≤ e.oneWayBeamCost ∧ 0 ≤ e.twoWayBeamCost) ∧
  (e.flatPlateCost = 999 ∨
    ∃ d : FlatPlateDesign, e.flatPlateCost = d.totalCost / (e.span * W)) ∧
  (e.oneWayBeamCost = 999 ∨
    ∃ d : OneWayDesign, e.oneWayBeamCost = d.totalCost / (e.span * W)) ∧
  (e.twoWayBeamCost = 999 ∨
    ∃ d : TwoWayDesign, e.twoWayBeamCost = d.totalCost / (e.span * W))

/-! ## Helper lemmas: sorting, folds, loop bounds -/

instance : IsTotal CostPoint costLe := ⟨fun a b => le_total a.thickness b.thickness⟩

instance : IsTrans CostPoint costLe := ⟨fun _ _ _ h1 h2 => le_trans h1 h2⟩

theorem sortByThickness_sorted (l : List CostPoint) :
    (sortByThickness l).Sorted costLe :=
  List.sorted_insertionSort costLe l

theorem sortByThickness_perm (l : List CostPoint) : (sortByThickness l).Perm l :=
  List.perm_insertionSort costLe l

theorem sortByThickness_of_sorted {l : List CostPoint} (h : l.Sorted costLe) :
    sortByThickness l = l :=
  h.insertionSort_eq

theorem sortByThickness_idem (l : List CostPoint) :
    sortByThickness (sortByThickness l) = sortByThickness l :=
  sortByThickness_of_sorted (sortByThickness_sorted l)

theorem searchFold_invariant {α β : Type} (ok : α → Bool)
    (upd : Option β → List CostPoint → α → Option β) (l : List α)
    (Inv : Option β × List CostPoint → Prop) :
    ∀ init, Inv init →
      (∀ st a, a ∈ l → Inv st → Inv (searchStep ok upd st a)) →
      Inv (searchFold ok upd init l) := by
  induction l with
  | nil => intro init h _; exact h
  | cons a l ih =>
    intro init h hstep
    exact ih _ (hstep init a (List.mem_cons_self a l) h)
      (fun st b hb => hstep st b (List.mem_cons_of_mem a hb))

theorem searchFold_best_pred {α β : Type} (ok : α → Bool)
    (upd : Option β → List CostPoint → α → Option β) (l : List α) (P : β → Prop)
    (init : Option β × List CostPoint) (h0 : init.1.elim True P)
    (hupd : ∀ (b : Option β) t a, a ∈ l → b.elim True P → (upd b t a).elim True P) :
    (searchFold ok upd init l).1.elim True P := by
  refine searchFold_invariant ok upd l (fun st => st.1.elim True P) init h0 ?_
  intro st a ha hst
  unfold searchStep
  split
  · exact hupd st.1 _ a ha hst
  · exact hst

theorem updateBest_elim {β : Type} (cost : β → ℚ) (P : β → Prop) (best : Option β)
    (d : β) (hb : best.elim True P) (hd : P d) :
    (updateBest cost best d).elim True P := by
  cases best with
  | none => simpa [updateBest] using hd
  | some b =>
    simp only [updateBest]
    split
    · simpa using hd
    · simpa using hb

theorem searchFold_table {α β : Type} (ok : α → Bool)
    (upd : Option β → List CostPoint → α → Option β) (l : List α)
    (init : Option β × List CostPoint) :
    (searchFold ok upd init l).2 = init.2 ∨
      (searchFold ok upd init l).2 = sortByThickness init.2 := by
  refine searchFold_invariant ok upd l
    (fun st => st.2 = init.2 ∨ st.2 = sortByThickness init.2) init (Or.inl rfl) ?_
  intro st a _ hst
  unfold searchStep
  split
  · rcases hst with h | h
    · exact Or.inr (by rw [h])
    · exact Or.inr (by rw [h, sortByThickness_idem])
  · exact hst

theorem searchFold_table_of_ok {α β : Type} (ok : α → Bool)
    (upd : Option β → List CostPoint → α → Option β) :
    ∀ (l : List α) (x : α), x ∈ l → ok x = true →
      ∀ init : Option β × List CostPoint,
        (searchFold ok upd init l).2 = sortByThickness init.2 := by
  intro l
  induction l with
  | nil => intro x hx; exact absurd hx (List.not_mem_nil x)
  | cons a l ih =>
    intro x hx hok init
    rcases List.mem_cons.mp hx with rfl | hx'
    · show (searchFold ok upd (searchStep ok upd init x) l).2 = sortByThickness init.2
      have hstep : (searchStep ok upd init x).2 = sortByThickness init.2 := by
        unfold searchStep; rw [if_pos hok]
      rcases searchFold_table ok upd l (searchStep ok upd init x) with h | h
      · rw [h, hstep]
      · rw [h, hstep, sortByThickness_idem]
    · show (searchFold ok upd (searchStep ok upd init a) l).2 = sortByThickness init.2
      rw [ih x hx' hok (searchStep ok upd init a)]
      unfold searchStep
      split
      · simp [sortByThickness_idem]
      · rfl

theorem searchFold_isSome_mono {α β : Type} (ok : α → Bool)
    (upd : Option β → List CostPoint → α → Option β) (l : List α)
    (hmono : ∀ (b : Option β) t a, b.isSome = true → (upd b t a).isSome = true)
    (init : Option β × List CostPoint) (h0 : init.1.isSome = true) :
    (searchFold ok upd init l).1.isSome = true := by
  refine searchFold_invariant ok upd l (fun st => st.1.isSome = true) init h0 ?_
  intro st a _ hst
  unfold searchStep
  split
  · exact hmono st.1 _ a hst
  · exact hst

theorem searchFold_isSome {α β : Type} (ok : α → Bool)
    (upd : Option β → List CostPoint → α → Option β) :
    ∀ (l : List α) (x : α), x ∈ l → ok x = true →
      (∀ (b : Option β) t a, b.isSome = true → (upd b t a).isSome = true) →
      (∀ (b : Option β) t a, ok a = true → (upd b t a).isSome = true) →
      ∀ init : Option β × List CostPoint,
        (searchFold ok upd init l).1.isSome = true := by
  intro l
  induction l with
  | nil => intro x hx; exact absurd hx (List.not_mem_nil x)
  | cons a l ih =>
    intro x hx hok hmono hcreate init
    rcases List.mem_cons.mp hx with rfl | hx'
    · show (searchFold ok upd (searchStep ok upd init x) l).1.isSome = true
      refine searchFold_isSome_mono ok upd l hmono _ ?_
      unfold searchStep
      rw [if_pos hok]
      exact hcreate init.1 _ x hok
    · exact ih x hx' hok hmono hcreate (searchStep ok upd init a)

theorem ratFloor_eq (q : ℚ) : q.floor = ⌊q⌋ :=
  (Rat.floor_def' q).trans Rat.floor_def.symm

theorem qRange_mem {x a st : ℚ} {n : ℕ} (h : x ∈ qRange a st n) :
    ∃ k : ℕ, k < n ∧ x = a + (k : ℚ) * st := by
  unfold qRange at h
  obtain ⟨k, hk, hx⟩ := List.mem_map.mp h
  exact ⟨k, List.mem_range.mp hk, hx.symm⟩

theorem qLoop_lower {x a b st : ℚ} (h : x ∈ qLoop a b st) (hst : 0 ≤ st) : a ≤ x := by
  obtain ⟨k, _, rfl⟩ := qRange_mem h
  have : (0 : ℚ) ≤ (k : ℚ) * st := mul_nonneg (by positivity) hst
  linarith

theorem qLoop_upper {x a b st : ℚ} (h : x ∈ qLoop a b st) (hst : 0 < st) : x ≤ b := by
  obtain ⟨k, hk, rfl⟩ := qRange_mem h
  unfold qSteps at hk
  have hk1 : (k : ℤ) < (((b - a) / st).floor + 1) := by
    exact_mod_cast Int.lt_toNat.mp hk
  have hk2 : (k : ℤ) ≤ ⌊(b - a) / st⌋ := by
    rw [ratFloor_eq] at hk1; omega
  have hk3 : (k : ℚ) ≤ (b - a) / st := by
    calc (k : ℚ) ≤ (⌊(b - a) / st⌋ : ℚ) := by exact_mod_cast hk2
      _ ≤ (b - a) / st := Int.floor_le _
  have := (le_div_iff₀ hst).mp hk3
  linarith

theorem concreteStrengthList_lower {L fc : ℚ} (h : fc ∈ concreteStrengthList L) :
    5000 ≤ fc := by
  have h1 := (List.mem_filter.mp h).1
  simp only [List.mem_cons, List.not_mem_nil, or_false] at h1
  rcases h1 with rfl | rfl | rfl | rfl | rfl <;> norm_num

theorem flatPlateGrid_bounds {L : ℚ} {p : ℚ × ℚ × ℚ × ℚ} (hp : p ∈ flatPlateGrid L) :
    5000 ≤ p.1 ∧ 5 ≤ p.2.1 ∧ 0.6 ≤ p.2.2.1 ∧ 0.6 ≤ p.2.2.2 := by
  simp only [flatPlateGrid, List.mem_flatMap, List.mem_map] at hp
  obtain ⟨fc, hfc, t, ht, br, hbr, er, her, rfl⟩ := hp
  refine ⟨concreteStrengthList_lower hfc, ?_, ?_, ?_⟩
  · exact le_trans (le_max_left 5 _) (qLoop_lower ht (by norm_num))
  · exact qLoop_lower hbr (by norm_num)
  · exact qLoop_lower her (by norm_num)

theorem oneWayGrid_bounds {L W : ℚ} {p : ℚ × ℚ × ℚ × ℚ} (hp : p ∈ oneWayGrid L W) :
    5000 ≤ p.1 ∧ 12 ≤ p.2.1 ∧ 12 ≤ p.2.2.1 ∧ p.2.2.1 ≤ 24 ∧ 4 ≤ p.2.2.2 := by
  simp only [oneWayGrid, List.mem_flatMap, List.mem_map] at hp
  obtain ⟨fc, hfc, bd, hbd, bw, hbw, st, hst, rfl⟩ := hp
  refine ⟨concreteStrengthList_lower hfc, ?_, ?_, ?_, ?_⟩
  · exact le_trans (le_max_left 12 _) (qLoop_lower hbd (by norm_num))
  · exact qLoop_lower hbw (by norm_num)
  · exact qLoop_upper hbw (by norm_num)
  · exact le_trans (le_max_left 4 _) (qLoop_lower hst (by norm_num))

theorem twoWayGrid_bounds {L W : ℚ} {p : ℚ × ℚ × ℚ × ℚ} (hp : p ∈ twoWayGrid L W) :
    5000 ≤ p.1 ∧ 12 ≤ p.2.1 ∧ 12 ≤ p.2.2.1 ∧ p.2.2.1 ≤ 20 ∧ 3 ≤ p.2.2.2 := by
  simp only [twoWayGrid, List.mem_flatMap, List.mem_map] at hp
  obtain ⟨fc, hfc, bd, hbd, bw, hbw, st, hst, rfl⟩ := hp
  refine ⟨concreteStrengthList_lower hfc, ?_, ?_, ?_, ?_⟩
  · exact le_trans (le_max_left 12 _) (qLoop_lower hbd (by norm_num))
  · exact qLoop_lower hbw (by norm_num)
  · exact qLoop_upper hbw (by norm_num)
  · exact le_trans (le_max_left 3 _) (qLoop_lower hst (by norm_num))

/-! ## Helper lemmas: nonnegativity of the cost model -/

theorem interp_nonneg {t1 t2 c1 c2 t : ℚ} (h1 : 0 ≤ c1) (h2 : 0 ≤ c2)
    (hl : t1 ≤ t) (hr : t ≤ t2) :
    0 ≤ c1 + (c2 - c1) * (t - t1) / (t2 - t1) := by
  rcases eq_or_lt_of_le (hl.trans hr) with heq | hlt
  · have ht : t = t1 := le_antisymm (heq ▸ hr) hl
    simp [ht, h1]
  · have hpos : 0 < t2 - t1 := sub_pos.mpr hlt
    have hq1 : 0 ≤ (t - t1) / (t2 - t1) := div_nonneg (by linarith) hpos.le
    have hq2 : (t - t1) / (t2 - t1) ≤ 1 := (div_le_one hpos).mpr (by linarith)
    rw [mul_div_assoc]
    nlinarith [mul_nonneg h2 hq1, mul_nonneg h1 (sub_nonneg.mpr hq2)]

theorem bracketScan_nonneg :
    ∀ (l : List CostPoint), l.Sorted costLe → (∀ pt ∈ l, 0 ≤ pt.costPerSf) →
      ∀ t v, bracketScan l t = some v → 0 ≤ v
  | [], _, _, t, v, h => by simp [bracketScan] at h
  | [p], _, _, t, v, h => by simp [bracketScan] at h
  | p :: q :: rest, hs, hc, t, v, h => by
    rw [bracketScan] at h
    split at h
    · rename_i hcond
      have hle : p.thickness ≤ q.thickness :=
        (List.sorted_cons.mp hs).1 q (List.mem_cons_self q rest)
      have hv := Option.some.inj h
      have := interp_nonneg (hc p (List.mem_cons_self p _))
        (hc q (List.mem_cons_of_mem p (List.mem_cons_self q rest))) hcond.1 hcond.2
      rw [hv] at this
      exact this
    · exact bracketScan_nonneg (q :: rest) (List.sorted_cons.mp hs).2
        (fun pt hpt => hc pt (List.mem_cons_of_mem p hpt)) t v h

theorem getLastD_mem_cons {α : Type} : ∀ (l : List α) (d : α), l.getLastD d ∈ d :: l
  | [], d => by simp
  | a :: l, d => by
    rw [List.getLastD_cons]
    exact List.mem_cons_of_mem d (getLastD_mem_cons l a)

theorem findBaseSlabCost_getD_nonneg {dflt : ℚ} (hd : 0 ≤ dflt) {l : List CostPoint}
    (hs : l.Sorted costLe) (hc : ∀ pt ∈ l, 0 ≤ pt.costPerSf) (t : ℚ) :
    0 ≤ (findBaseSlabCost dflt l t).getD dflt := by
  cases l with
  | nil => simpa [findBaseSlabCost] using hd
  | cons p rest =>
    simp only [findBaseSlabCost, Option.getD_some]
    split
    · exact hc p (List.mem_cons_self p rest)
    · split
      · exact hc _ (getLastD_mem_cons rest p)
      · cases h : bracketScan (p :: rest) t with
        | none => simpa [h] using hd
        | some v => simpa [h] using bracketScan_nonneg (p :: rest) hs hc t v h

theorem getConcreteBaseCost_ge (fc : ℚ) : 220 ≤ getConcreteBaseCost fc := by
  unfold getConcreteBaseCost
  dsimp only
  split
  · norm_num
  · rename_i h1
    have h5 : (5000 : ℚ) < fc := not_le.mp h1
    have hmin : (0 : ℚ) ≤ min (fc - 5000) 7000 := le_min (by linarith) (by norm_num)
    split <;> nlinarith

theorem getConcreteBaseCost_base : getConcreteBaseCost 5000 = 220 := by
  norm_num [getConcreteBaseCost]

theorem adjustSlabCost_nonneg {baseCost thickness fc : ℚ} (hb : 0 ≤ baseCost)
    (ht : 0 ≤ thickness) : 0 ≤ adjustSlabCostForStrength baseCost thickness fc := by
  unfold adjustSlabCostForStrength
  dsimp only
  rw [getConcreteBaseCost_base]
  have := getConcreteBaseCost_ge fc
  have hvol : (0 : ℚ) ≤ thickness / 12 / 27 := by positivity
  nlinarith

theorem lossFrac_nonneg (fc : ℚ) : 0 ≤ lossFrac fc := by
  unfold lossFrac
  split_ifs <;> norm_num

theorem ratCeil_cast_nonneg {q : ℚ} (h : 0 ≤ q) : (0 : ℚ) ≤ ((q.ceil : ℤ) : ℚ) := by
  have hnum : 0 ≤ q.num := Rat.num_nonneg.mpr h
  unfold Rat.ceil
  split
  · exact_mod_cast hnum
  · have : (0 : ℤ) ≤ q.num / q.den := Int.ediv_nonneg hnum (Int.ofNat_nonneg q.den)
    push_cast
    exact_mod_cast by linarith

theorem mildSteel_governing_nonneg (s : ℚ → ℚ) (t sp fc fy ss Mcr d : ℚ) (ht : 0 ≤ t) :
    0 ≤ (calculateTotalMildSteel s t sp fc fy ss Mcr d).governing := by
  have h1 : (0 : ℚ) ≤ 0.0018 * t * 12 := by positivity
  unfold calculateTotalMildSteel
  exact le_trans h1 (le_max_left _ _)

theorem effectiveMildSteelCost_nonneg {c : Option ℚ} (h : ∀ x ∈ c, 0 ≤ x) :
    0 ≤ effectiveMildSteelCost c := by
  cases c with
  | none => norm_num [effectiveMildSteelCost]
  | some x =>
    simp only [effectiveMildSteelCost]
    split
    · norm_num
    · exact h x rfl

theorem beamDirForce_nonneg {a b Pe : ℚ} (h : 0 ≤ Pe) : 0 ≤ beamDirForce a b Pe := by
  unfold beamDirForce
  split
  · exact h
  · positivity

theorem ite_nonneg {c : Prop} [Decidable c] {a b : ℚ} (ha : 0 ≤ a) (hb : 0 ≤ b) :
    0 ≤ if c then a else b := by
  split
  · exact ha
  · exact hb

theorem ratSqrt_nonneg (q : ℚ) : 0 ≤ ratSqrt q := by
  unfold ratSqrt
  split
  · norm_num
  · positivity

theorem getCoverRequirement_bounds (fc : ℚ) :
    1.5 ≤ getCoverRequirement fc ∧ getCoverRequirement fc ≤ 2 := by
  unfold getCoverRequirement
  split_ifs <;> norm_num

theorem comparisonSpans_lower : ∀ sp ∈ comparisonSpans, (18 : ℚ) ≤ sp := by
  intro sp hsp
  fin_cases hsp <;> norm_num

theorem zpow_neg_two_eq (a : ℚ) : a ^ (-2 : ℤ) = (a ^ 2)⁻¹ := by
  rw [zpow_neg]
  norm_cast

theorem alphaShort_nonneg (a : ℚ) :
    0 ≤ if a ≤ 1.0 then (0.125 : ℚ) else 0.125 * a ^ (-2 : ℤ) := by
  split
  · norm_num
  · rw [zpow_neg_two_eq]
    exact mul_nonneg (by norm_num) (inv_nonneg.mpr (sq_nonneg a))

theorem alphaLong_nonneg (a : ℚ) :
    0 ≤ if a ≤ 1.0 then (0.125 : ℚ)
        else 0.125 - (if a ≤ 1.0 then (0.125 : ℚ) else 0.125 * a ^ (-2 : ℤ)) := by
  split
  · norm_num
  · rename_i hgt
    rw [zpow_neg_two_eq]
    have h1 : (1 : ℚ) < a := by
      have := not_le.mp hgt
      linarith
    have h2 : (1 : ℚ) < a ^ 2 := by nlinarith
    have hinv : (0 : ℚ) ≤ (a ^ 2)⁻¹ := inv_nonneg.mpr (by nlinarith)
    have h5 : (a ^ 2)⁻¹ * a ^ 2 = 1 := inv_mul_cancel₀ (by nlinarith)
    nlinarith [mul_nonneg hinv (by nlinarith : (0 : ℚ) ≤ a ^ 2 - 1)]

theorem flatPlateChecksOk_emax {s : ℚ → ℚ} {L fc t br er : ℚ}
    (h : flatPlateChecksOk s L fc t br er = true) :
    1 ≤ t / 2 - getCoverRequirement fc - 0.5 / 2 := by
  by_contra hc
  push_neg at hc
  unfold flatPlateChecksOk at h
  dsimp only at h
  rw [if_pos (by linarith : t / 2 - getCoverRequirement fc - 0.5 / 2 < 1.0)] at h
  exact Bool.false_ne_true h

theorem prestressSearch_mem {γ : Type} {balances es : List ℚ} {f : ℚ → ℚ → Option γ}
    {r : γ} (h : prestressSearch balances es f = some r) :
    ∃ br ∈ balances, ∃ er ∈ es, f br er = some r := by
  unfold prestressSearch at h
  obtain ⟨p, hp, hfp⟩ := List.exists_of_findSome?_eq_some h
  obtain ⟨br, hbr, hp2⟩ := List.mem_flatMap.mp hp
  obtain ⟨er, her, rfl⟩ := List.mem_map.mp hp2
  exact ⟨br, hbr, er, her, hfp⟩

theorem slabPrestressPoint_eq {limits : StressLimits} {props : SectionProps}
    {fc Md MS emax br er : ℚ} {sp : SlabPrestress}
    (h : slabPrestressPoint limits props fc Md MS emax br er = some sp) :
    sp.Pe = br * Md / (er * emax) ∧ sp.e = er * emax := by
  unfold slabPrestressPoint at h
  dsimp only at h
  split at h
  · exact Option.noConfusion h
  · split at h
    · exact Option.noConfusion h
    · injection h with h'
      subst h'
      exact ⟨rfl, rfl⟩

theorem beamPrestressPoint_eq {limits : StressLimits} {beamA beamSt beamSb : ℚ}
    {fc Md MS emax br er : ℚ} {bp : BeamPrestress}
    (h : beamPrestressPoint limits beamA beamSt beamSb fc Md MS emax br er = some bp) :
    bp.Pe = br * Md / (er * emax) ∧ bp.e = er * emax := by
  unfold beamPrestressPoint at h
  dsimp only at h
  split at h
  · exact Option.noConfusion h
  · injection h with h'
    subst h'
    exact ⟨rfl, rfl⟩

theorem oneWayEval_Pe_nonneg {s : ℚ → ℚ} {L W fc bd bw st : ℚ} {fd : FeasiblePrestress}
    (hL : 0 ≤ L) (hW : 0 ≤ W) (hst : 0 ≤ st) (hbd : 12 ≤ bd) (hbw : 0 ≤ bw)
    (hcs : 0 ≤ W - bw / 12)
    (h : oneWayEval s L W fc bd bw st = some fd) :
    0 ≤ fd.slabPrestress.Pe ∧ 0 ≤ fd.beamPrestress.Pe := by
  have hcov := getCoverRequirement_bounds fc
  unfold oneWayEval at h
  dsimp only at h
  split at h
  case isTrue => exact Option.noConfusion h
  rename_i hguard
  split at h
  case h_1 => exact Option.noConfusion h
  rename_i slabP hslab
  split at h
  case h_1 => exact Option.noConfusion h
  rename_i beamP hbeam
  have hPe1 : 0 ≤ slabP.Pe := by
    obtain ⟨br, hbr, er, her, hpt⟩ := prestressSearch_mem hslab
    obtain ⟨hPe, -⟩ := slabPrestressPoint_eq hpt
    rw [hPe]
    have hbr' : (0.6 : ℚ) ≤ br := qLoop_lower hbr (by norm_num)
    have her' : (0.6 : ℚ) ≤ er := qLoop_lower her (by norm_num)
    have hemax' : (0 : ℚ) ≤ st / 2 - getCoverRequirement fc - 0.375 / 2 := by
      have := not_lt.mp hguard
      linarith
    refine div_nonneg (mul_nonneg (by linarith) ?_) (mul_nonneg (by linarith) hemax')
    exact div_nonneg (mul_nonneg (mul_nonneg (mul_nonneg
      (mul_nonneg (by norm_num) hst) hcs) hcs) (by norm_num)) (by norm_num)
  have hPe2 : 0 ≤ beamP.Pe := by
    obtain ⟨br, hbr, er, her, hpt⟩ := prestressSearch_mem hbeam
    obtain ⟨hPe, -⟩ := beamPrestressPoint_eq hpt
    rw [hPe]
    have hbr' : (0.7 : ℚ) ≤ br := qLoop_lower hbr (by norm_num)
    have her' : (0.7 : ℚ) ≤ er := qLoop_lower her (by norm_num)
    have hemax2 : (0 : ℚ) ≤ (bd + st) / 2 - (getCoverRequirement fc + 0.5) - 1.0 := by
      have := hcov.2
      linarith
    refine div_nonneg (mul_nonneg (by linarith) ?_) (mul_nonneg (by linarith) hemax2)
    have h1 : (0 : ℚ) ≤ 12.5 * st * W := by positivity
    have h2 : (0 : ℚ) ≤ bw * (bd + st) / 144 * 150 := by
      have htd : (0 : ℚ) ≤ bd + st := by linarith
      positivity
    exact div_nonneg (mul_nonneg (mul_nonneg (mul_nonneg
      (add_nonneg h1 h2) hL) hL) (by norm_num)) (by norm_num)
  repeat' split at h
  all_goals
    first
      | exact Option.noConfusion h
      | (injection h with h'
         subst h'
         exact ⟨hPe1, hPe2⟩)

theorem twoWayEval_Pe_nonneg {s : ℚ → ℚ} {L W fc bd bw st : ℚ} {fd : FeasiblePrestress}
    (hL : 3 ≤ L) (hW : 3 ≤ W) (hst : 0 ≤ st) (hbd : 12 ≤ bd) (hbw : 0 ≤ bw)
    (hbw20 : bw ≤ 20)
    (h : twoWayEval s L W fc bd bw st = some fd) :
    0 ≤ fd.slabPrestress.Pe ∧ 0 ≤ fd.beamPrestress.Pe := by
  have hcov := getCoverRequirement_bounds fc
  have hL0 : (0 : ℚ) ≤ L := by linarith
  have hW0 : (0 : ℚ) ≤ W := by linarith
  have hcsL : (0 : ℚ) ≤ L - bw / 12 := by linarith
  have hcsW : (0 : ℚ) ≤ W - bw / 12 := by linarith
  have hshort : (0 : ℚ) ≤ min (L - bw / 12) (W - bw / 12) := le_min hcsL hcsW
  have hlong : (0 : ℚ) ≤ max (L - bw / 12) (W - bw / 12) :=
    le_trans hcsL (le_max_left _ _)
  unfold twoWayEval at h
  dsimp only at h
  split at h
  case isTrue => exact Option.noConfusion h
  rename_i hguard
  split at h
  case h_1 => exact Option.noConfusion h
  rename_i slabP hslab
  split at h
  case h_1 => exact Option.noConfusion h
  rename_i beamP hbeam
  have hPe1 : 0 ≤ slabP.Pe := by
    obtain ⟨br, hbr, er, her, hpt⟩ := prestressSearch_mem hslab
    obtain ⟨hPe, -⟩ := slabPrestressPoint_eq hpt
    rw [hPe]
    have hbr' : (0.7 : ℚ) ≤ br := qLoop_lower hbr (by norm_num)
    have her' : (0.6 : ℚ) ≤ er := qLoop_lower her (by norm_num)
    have hemax' : (0 : ℚ) ≤ st / 2 - getCoverRequirement fc - 0.375 / 2 := by
      have := not_lt.mp hguard
      linarith
    have hsd : (0 : ℚ) ≤ 12.5 * st := by positivity
    refine div_nonneg (mul_nonneg (by linarith) (ite_nonneg ?_ ?_))
      (mul_nonneg (by linarith) hemax')
    · exact mul_nonneg (mul_nonneg (mul_nonneg
        (mul_nonneg (alphaLong_nonneg _) hsd) hlong) hlong) (by norm_num)
    · exact mul_nonneg (mul_nonneg (mul_nonneg
        (mul_nonneg (alphaShort_nonneg _) hsd) hshort) hshort) (by norm_num)
  have hPe2 : 0 ≤ beamP.Pe := by
    obtain ⟨br, hbr, er, her, hpt⟩ := prestressSearch_mem hbeam
    obtain ⟨hPe, -⟩ := beamPrestressPoint_eq hpt
    rw [hPe]
    have hbr' : (0.8 : ℚ) ≤ br := qLoop_lower hbr (by norm_num)
    have her' : (0.7 : ℚ) ≤ er := qLoop_lower her (by norm_num)
    have hemax2 : (0 : ℚ) ≤ (bd + st) / 2 - (getCoverRequirement fc + 0.5) - 1.0 := by
      have := hcov.2
      linarith
    have hbeamWt : (0 : ℚ) ≤ bw * (bd + st) / 144 * 150 := by
      have htd : (0 : ℚ) ≤ bd + st := by linarith
      positivity
    have hAL : (0 : ℚ) ≤ 12.5 * st * (L - bw / 12) / 2 :=
      div_nonneg (mul_nonneg (mul_nonneg (by norm_num) hst) hcsL) (by norm_num)
    have hAW : (0 : ℚ) ≤ 12.5 * st * (W - bw / 12) / 2 :=
      div_nonneg (mul_nonneg (mul_nonneg (by norm_num) hst) hcsW) (by norm_num)
    refine div_nonneg (mul_nonneg (by linarith) (ite_nonneg ?_ ?_))
      (mul_nonneg (by linarith) hemax2)
    · exact div_nonneg (mul_nonneg (mul_nonneg (mul_nonneg
        (add_nonneg hAL hbeamWt) hW0) hW0) (by norm_num)) (by norm_num)
    · exact div_nonneg (mul_nonneg (mul_nonneg (mul_nonneg
        (add_nonneg hAW hbeamWt) hL0) hL0) (by norm_num)) (by norm_num)
  repeat' split at h
  all_goals
    first
      | exact Option.noConfusion h
      | (injection h with h'
         subst h'
         exact ⟨hPe1, hPe2⟩)

theorem flatPlateDesignOf_totalCost_nonneg (s : ℚ → ℚ) (L W : ℚ) (cp : CostParams)
    (sorted : List CostPoint) (fc t br er : ℚ)
    (hs : ∀ x, 0 ≤ s x) (hL : 0 ≤ L) (hW : 0 ≤ W) (ht : 0 ≤ t)
    (hbr : 0 ≤ br) (her : 0 ≤ er)
    (hemax : 0 ≤ t / 2 - getCoverRequirement fc - 0.5 / 2)
    (hsort : sorted.Sorted costLe) (hcost : ∀ pt ∈ sorted, 0 ≤ pt.costPerSf)
    (hform : 0 ≤ cp.ptFormworkCostPerSf) (hstr : 0 ≤ cp.ptStrandCostPerLb)
    (hmild : ∀ x ∈ cp.mildSteelCostPerLb, 0 ≤ x) :
    0 ≤ (flatPlateDesignOf s L W cp sorted fc t br er).totalCost := by
  have hlf := lossFrac_nonneg fc
  unfold flatPlateDesignOf
  dsimp only
  refine add_nonneg (add_nonneg (add_nonneg
      (mul_nonneg (mul_nonneg hL hW) ?_) (mul_nonneg (mul_nonneg hL hW) hform))
      (mul_nonneg ?_ hstr)) (mul_nonneg (mul_nonneg hL hW) ?_)
  · exact adjustSlabCost_nonneg (findBaseSlabCost_getD_nonneg (by norm_num) hsort hcost t) ht
  · refine mul_nonneg (mul_nonneg (ratCeil_cast_nonneg ?_) (by norm_num))
      (mul_nonneg (hs _) (by norm_num))
    refine div_nonneg (mul_nonneg (div_nonneg (mul_nonneg hbr ?_)
      (mul_nonneg her hemax)) hW) ?_
    · positivity
    · exact mul_nonneg (mul_nonneg (mul_nonneg (by norm_num) (by norm_num)) hlf) (by norm_num)
  · refine mul_nonneg (div_nonneg (mul_nonneg (div_nonneg
      (mildSteel_governing_nonneg _ _ _ _ _ _ _ _ ht) (by norm_num)) (by norm_num))
      (by norm_num)) (effectiveMildSteelCost_nonneg hmild)

theorem oneWayDesignOf_totalCost_nonneg (s : ℚ → ℚ) (L W : ℚ) (cp : CostParams)
    (sorted : List CostPoint) (fc bd bw st : ℚ) (fd : FeasiblePrestress)
    (hs : ∀ x, 0 ≤ s x) (hL : 0 ≤ L) (hW3 : 3 ≤ W) (hbd : 0 ≤ bd) (hbw : 0 ≤ bw)
    (hbw24 : bw ≤ 24) (hst : 0 ≤ st)
    (hsort : sorted.Sorted costLe) (hcost : ∀ pt ∈ sorted, 0 ≤ pt.costPerSf)
    (hform : 0 ≤ cp.ptFormworkCostPerSf) (hbf : 0 ≤ cp.beamFormingCostPerCf)
    (hbp : 0 ≤ cp.beamPouringCostPerCf) (hstr : 0 ≤ cp.ptStrandCostPerLb)
    (hmild : ∀ x ∈ cp.mildSteelCostPerLb, 0 ≤ x)
    (hPe1 : 0 ≤ fd.slabPrestress.Pe) (hPe2 : 0 ≤ fd.beamPrestress.Pe) :
    0 ≤ (oneWayDesignOf s L W cp sorted fc bd bw st fd).totalCost := by
  have hW : (0 : ℚ) ≤ W := by linarith
  have hcs : (0 : ℚ) ≤ W - bw / 12 := by linarith
  have htd : (0 : ℚ) ≤ bd + st := by linarith
  have hbv : (0 : ℚ) ≤ L * bw * (bd + st) / 1728 :=
    div_nonneg (mul_nonneg (mul_nonneg hL hbw) htd) (by norm_num)
  unfold oneWayDesignOf
  dsimp only
  refine add_nonneg (add_nonneg (add_nonneg (add_nonneg (add_nonneg
    (mul_nonneg (mul_nonneg hL hW) ?_) (mul_nonneg (mul_nonneg hL hW) hform))
    (mul_nonneg hbv hbf)) (mul_nonneg hbv hbp))
    (mul_nonneg (add_nonneg ?_ ?_) hstr)) (mul_nonneg (add_nonneg ?_ ?_)
      (effectiveMildSteelCost_nonneg hmild))
  · exact adjustSlabCost_nonneg (findBaseSlabCost_getD_nonneg (by norm_num) hsort hcost st) hst
  · exact mul_nonneg (mul_nonneg (mul_nonneg
      (ratCeil_cast_nonneg (div_nonneg (mul_nonneg hPe1 hL) (by norm_num))) (by norm_num))
      (mul_nonneg (hs _) (by norm_num))) (div_nonneg hL hcs)
  · exact mul_nonneg (mul_nonneg
      (ratCeil_cast_nonneg (div_nonneg hPe2 (by norm_num))) (by norm_num))
      (mul_nonneg (hs _) (by norm_num))
  · exact mul_nonneg (div_nonneg (mul_nonneg
      (mildSteel_governing_nonneg _ _ _ _ _ _ _ _ hst) (by norm_num)) (by norm_num))
      (mul_nonneg hL hW)
  · exact mul_nonneg (mul_nonneg (div_nonneg (mul_nonneg (by norm_num)
      (mul_nonneg hbw htd)) (by norm_num)) (by norm_num)) hbv

theorem twoWayDesignOf_totalCost_nonneg (s : ℚ → ℚ) (L W : ℚ) (cp : CostParams)
    (sorted : List CostPoint) (fc bd bw st : ℚ) (fd : FeasiblePrestress)
    (hs : ∀ x, 0 ≤ s x) (hL3 : 3 ≤ L) (hW3 : 3 ≤ W) (hbd : 0 ≤ bd) (hbw : 0 ≤ bw)
    (hbw20 : bw ≤ 20) (hst : 0 ≤ st)
    (hsort : sorted.Sorted costLe) (hcost : ∀ pt ∈ sorted, 0 ≤ pt.costPerSf)
    (hform : 0 ≤ cp.ptFormworkCostPerSf) (hbf : 0 ≤ cp.beamFormingCostPerCf)
    (hbp : 0 ≤ cp.beamPouringCostPerCf) (hstr : 0 ≤ cp.ptStrandCostPerLb)
    (hmild : ∀ x ∈ cp.mildSteelCostPerLb, 0 ≤ x)
    (hPe1 : 0 ≤ fd.slabPrestress.Pe) (hPe2 : 0 ≤ fd.beamPrestress.Pe) :
    0 ≤ (twoWayDesignOf s L W cp sorted fc bd bw st fd).totalCost := by
  have hL : (0 : ℚ) ≤ L := by linarith
  have hW : (0 : ℚ) ≤ W := by linarith
  have hcsL : (0 : ℚ) ≤ L - bw / 12 := by linarith
  have hcsW : (0 : ℚ) ≤ W - bw / 12 := by linarith
  have hshort : (0 : ℚ) ≤ min (L - bw / 12) (W - bw / 12) := le_min hcsL hcsW
  have hlong : (0 : ℚ) ≤ max (L - bw / 12) (W - bw / 12) :=
    le_trans hcsL (le_max_left _ _)
  have htd : (0 : ℚ) ≤ bd + st := by linarith
  have htbv : (0 : ℚ) ≤ L * bw * (bd + st) / 1728 + W * bw * (bd + st) / 1728 :=
    add_nonneg (div_nonneg (mul_nonneg (mul_nonneg hL hbw) htd) (by norm_num))
      (div_nonneg (mul_nonneg (mul_nonneg hW hbw) htd) (by norm_num))
  unfold twoWayDesignOf
  dsimp only
  refine add_nonneg (add_nonneg (add_nonneg (add_nonneg (add_nonneg
    (mul_nonneg (mul_nonneg hL hW) ?_) (mul_nonneg (mul_nonneg hL hW) hform))
    (mul_nonneg htbv hbf)) (mul_nonneg htbv hbp))
    (mul_nonneg (add_nonneg (add_nonneg (add_nonneg ?_ ?_) ?_) ?_) hstr))
    (mul_nonneg (add_nonneg ?_ ?_) (effectiveMildSteelCost_nonneg hmild))
  · exact adjustSlabCost_nonneg (findBaseSlabCost_getD_nonneg (by norm_num) hsort hcost st) hst
  · exact mul_nonneg (mul_nonneg (mul_nonneg
      (ratCeil_cast_nonneg (div_nonneg (mul_nonneg hPe1 hlong) (by norm_num))) (by norm_num))
      hshort) (by norm_num)
  · exact mul_nonneg (mul_nonneg (mul_nonneg
      (ratCeil_cast_nonneg (div_nonneg (mul_nonneg (mul_nonneg hPe1 hshort) (by norm_num))
        (by norm_num))) (by norm_num)) hlong) (by norm_num)
  · exact mul_nonneg (mul_nonneg (mul_nonneg
      (ratCeil_cast_nonneg (div_nonneg (beamDirForce_nonneg hPe2) (by norm_num)))
      (by norm_num)) hL) (by norm_num)
  · exact mul_nonneg (mul_nonneg (mul_nonneg
      (ratCeil_cast_nonneg (div_nonneg (beamDirForce_nonneg hPe2) (by norm_num)))
      (by norm_num)) hW) (by norm_num)
  · exact mul_nonneg (mul_nonneg (div_nonneg (mul_nonneg
      (mildSteel_governing_nonneg _ _ _ _ _ _ _ _ hst) (by norm_num)) (by norm_num))
      (mul_nonneg hL hW)) (by norm_num)
  · exact mul_nonneg (mul_nonneg (div_nonneg (mul_nonneg (by norm_num)
      (mul_nonneg hbw htd)) (by norm_num)) (by norm_num)) htbv

theorem searchFold_best_pred_sorted {α β : Type} (ok : α → Bool)
    (upd : Option β → List CostPoint → α → Option β) (l : List α) (P : β → Prop)
    (T : List CostPoint → Prop)
    (init : Option β × List CostPoint) (h0 : init.1.elim True P) (hT0 : T init.2)
    (hTsort : ∀ t, T t → T (sortByThickness t))
    (hupd : ∀ (b : Option β) t a, a ∈ l → ok a = true → T t →
      b.elim True P → (upd b (sortByThickness t) a).elim True P) :
    (searchFold ok upd init l).1.elim True P := by
  have key := searchFold_invariant ok upd l
    (fun st => st.1.elim True P ∧ T st.2) init ⟨h0, hT0⟩ ?_
  · exact key.1
  · intro st a ha hst
    unfold searchStep
    split
    · rename_i hok
      exact ⟨hupd st.1 st.2 a ha hok hst.2 hst.1, hTsort st.2 hst.2⟩
    · exact hst

theorem searchFold_table_mem {α β : Type} (ok : α → Bool)
    (upd : Option β → List CostPoint → α → Option β) (l : List α)
    (init : Option β × List CostPoint) {pt : CostPoint}
    (hpt : pt ∈ (searchFold ok upd init l).2) : pt ∈ init.2 := by
  rcases searchFold_table ok upd l init with h | h
  · rwa [h] at hpt
  · rw [h] at hpt
    exact (sortByThickness_perm init.2).subset hpt

theorem optimizeFlatPlate_snd_nonneg (s : ℚ → ℚ) (L W : ℚ) (cp : CostParams)
    (h : CostParamsNonneg cp) : CostParamsNonneg (optimizeFlatPlate s L W cp).2 := by
  obtain ⟨h1, h2, h3, h4, h5, h6⟩ := h
  exact ⟨fun pt hpt => h1 pt (searchFold_table_mem _ _ _ _ hpt), h2, h3, h4, h5, h6⟩

theorem optimizeOneWayBeam_snd_nonneg (s : ℚ → ℚ) (L W bd : ℚ) (cp : CostParams)
    (h : CostParamsNonneg cp) : CostParamsNonneg (optimizeOneWayBeam s L W bd cp).2 := by
  obtain ⟨h1, h2, h3, h4, h5, h6⟩ := h
  exact ⟨fun pt hpt => h1 pt (searchFold_table_mem _ _ _ _ hpt), h2, h3, h4, h5, h6⟩

theorem optimizeTwoWayBeam_snd_nonneg (s : ℚ → ℚ) (L W bd : ℚ) (cp : CostParams)
    (h : CostParamsNonneg cp) : CostParamsNonneg (optimizeTwoWayBeam s L W bd cp).2 := by
  obtain ⟨h1, h2, h3, h4, h5, h6⟩ := h
  exact ⟨fun pt hpt => h1 pt (searchFold_table_mem _ _ _ _ hpt), h2, h3, h4, h5, h6⟩

theorem optimizeFlatPlate_best_nonneg (s : ℚ → ℚ) (L W : ℚ) (cp : CostParams)
    (hs : ∀ x, 0 ≤ s x) (hL : 0 ≤ L) (hW : 0 ≤ W) (hcp : CostParamsNonneg cp) :
    (optimizeFlatPlate s L W cp).1.elim True (fun d => 0 ≤ d.totalCost) := by
  obtain ⟨h1, h2, h3, h4, h5, h6⟩ := hcp
  refine searchFold_best_pred_sorted _ _ _ _
    (fun tb => ∀ pt ∈ tb, 0 ≤ pt.costPerSf) _ trivial h1
    (fun tb htb pt hpt => htb pt ((sortByThickness_perm tb).subset hpt)) ?_
  intro b tb a ha hok htb hb
  have hbnd := flatPlateGrid_bounds ha
  have hem := flatPlateChecksOk_emax hok
  exact updateBest_elim _ _ b _ hb
    (flatPlateDesignOf_totalCost_nonneg s L W cp (sortByThickness tb)
      a.1 a.2.1 a.2.2.1 a.2.2.2 hs hL hW (by linarith [hbnd.2.1])
      (by linarith [hbnd.2.2.1]) (by linarith [hbnd.2.2.2]) (by linarith)
      (sortByThickness_sorted tb)
      (fun pt hpt => htb pt ((sortByThickness_perm tb).subset hpt)) h2 h5 h6)

theorem optimizeOneWayBeam_best_nonneg (s : ℚ → ℚ) (L W bd : ℚ) (cp : CostParams)
    (hs : ∀ x, 0 ≤ s x) (hL : 0 ≤ L) (hW : 3 ≤ W) (hcp : CostParamsNonneg cp) :
    (optimizeOneWayBeam s L W bd cp).1.elim True (fun d => 0 ≤ d.totalCost) := by
  obtain ⟨h1, h2, h3, h4, h5, h6⟩ := hcp
  refine searchFold_best_pred_sorted _ _ _ _
    (fun tb => ∀ pt ∈ tb, 0 ≤ pt.costPerSf) _ trivial h1
    (fun tb htb pt hpt => htb pt ((sortByThickness_perm tb).subset hpt)) ?_
  intro b tb a ha hok htb hb
  have hbnd := oneWayGrid_bounds ha
  cases hev : oneWayEval s L W a.1 a.2.1 a.2.2.1 a.2.2.2 with
  | none => simpa [hev] using hb
  | some fd =>
    have hPe := oneWayEval_Pe_nonneg hL (by linarith) (by linarith [hbnd.2.2.2.2])
      (by linarith [hbnd.2.1]) (by linarith [hbnd.2.2.1])
      (by linarith [hbnd.2.2.2.1]) hev
    simpa [hev] using updateBest_elim _ _ b _ hb
      (oneWayDesignOf_totalCost_nonneg s L W cp (sortByThickness tb)
        a.1 a.2.1 a.2.2.1 a.2.2.2 fd hs hL hW (by linarith [hbnd.2.1])
        (by linarith [hbnd.2.2.1]) hbnd.2.2.2.1 (by linarith [hbnd.2.2.2.2])
        (sortByThickness_sorted tb)
        (fun pt hpt => htb pt ((sortByThickness_perm tb).subset hpt))
        h2 h3 h4 h5 h6 hPe.1 hPe.2)

theorem optimizeTwoWayBeam_best_nonneg (s : ℚ → ℚ) (L W bd : ℚ) (cp : CostParams)
    (hs : ∀ x, 0 ≤ s x) (hL : 3 ≤ L) (hW : 3 ≤ W) (hcp : CostParamsNonneg cp) :
    (optimizeTwoWayBeam s L W bd cp).1.elim True (fun d => 0 ≤ d.totalCost) := by
  obtain ⟨h1, h2, h3, h4, h5, h6⟩ := hcp
  refine searchFold_best_pred_sorted _ _ _ _
    (fun tb => ∀ pt ∈ tb, 0 ≤ pt.costPerSf) _ trivial h1
    (fun tb htb pt hpt => htb pt ((sortByThickness_perm tb).subset hpt)) ?_
  intro b tb a ha hok htb hb
  have hbnd := twoWayGrid_bounds ha
  cases hev : twoWayEval s L W a.1 a.2.1 a.2.2.1 a.2.2.2 with
  | none => simpa [hev] using hb
  | some fd =>
    have hPe := twoWayEval_Pe_nonneg hL hW (by linarith [hbnd.2.2.2.2])
      (by linarith [hbnd.2.1]) (by linarith [hbnd.2.2.1]) hbnd.2.2.2.1 hev
    simpa [hev] using updateBest_elim _ _ b _ hb
      (twoWayDesignOf_totalCost_nonneg s L W cp (sortByThickness tb)
        a.1 a.2.1 a.2.2.1 a.2.2.2 fd hs hL hW (by linarith [hbnd.2.1])
        (by linarith [hbnd.2.2.1]) hbnd.2.2.2.1 (by linarith [hbnd.2.2.2.2])
        (sortByThickness_sorted tb)
        (fun pt hpt => htb pt ((sortByThickness_perm tb).subset hpt))
        h2 h3 h4 h5 h6 hPe.1 hPe.2)

theorem comparisonStep_ok (s : ℚ → ℚ) (W bd : ℚ)
    (hs : ∀ x, 0 ≤ s x) (hW : 3 ≤ W)
    (st : List ComparisonEntry × CostParams) (sp : ℚ) (hsp : sp ∈ comparisonSpans)
    (hst1 : ∀ e ∈ st.1, EntryOk W e) (hst2 : CostParamsNonneg st.2) :
    (∀ e ∈ (comparisonStep s W bd st sp).1, EntryOk W e) ∧
      CostParamsNonneg (comparisonStep s W bd st sp).2 := by
  have hsp18 : (18 : ℚ) ≤ sp := comparisonSpans_lower sp hsp
  have hsp0 : (0 : ℚ) ≤ sp := by linarith
  have hW0 : (0 : ℚ) ≤ W := by linarith
  have hfpN := optimizeFlatPlate_best_nonneg s sp W st.2 hs hsp0 hW0 hst2
  have hcp1 := optimizeFlatPlate_snd_nonneg s sp W st.2 hst2
  have howN := optimizeOneWayBeam_best_nonneg s sp W bd _ hs hsp0 hW hcp1
  have hcp2 := optimizeOneWayBeam_snd_nonneg s sp W bd _ hcp1
  have htwN := optimizeTwoWayBeam_best_nonneg s sp W bd _ hs (by linarith) hW hcp2
  have hcp3 := optimizeTwoWayBeam_snd_nonneg s sp W bd _ hcp2
  refine ⟨?_, hcp3⟩
  intro e he
  simp only [comparisonStep, List.mem_append, List.mem_singleton] at he
  rcases he with he | he
  · exact hst1 e he
  · subst he
    rcases hfp : (optimizeFlatPlate s sp W st.2).1 with _ | d1 <;>
      rcases how : (optimizeOneWayBeam s sp W bd (optimizeFlatPlate s sp W st.2).2).1
        with _ | d2 <;>
      rcases htw : (optimizeTwoWayBeam s sp W bd
        (optimizeOneWayBeam s sp W bd (optimizeFlatPlate s sp W st.2).2).2).1
        with _ | d3 <;>
      refine ⟨hsp, ⟨?_, ?_, ?_⟩, ?_, ?_, ?_⟩ <;>
      dsimp only <;>
      first
        | exact Or.inl rfl
        | exact Or.inr ⟨_, rfl⟩
        | (norm_num
           done)
        | (have h' := hfpN
           rw [hfp] at h'
           exact div_nonneg (by simpa using h') (mul_nonneg hsp0 hW0))
        | (have h' := howN
           rw [how] at h'
           exact div_nonneg (by simpa using h') (mul_nonneg hsp0 hW0))
        | (have h' := htwN
           rw [htw] at h'
           exact div_nonneg (by simpa using h') (mul_nonneg hsp0 hW0))

theorem comparisons_foldl_ok (s : ℚ → ℚ) (W bd : ℚ)
    (hs : ∀ x, 0 ≤ s x) (hW : 3 ≤ W) :
    ∀ (spans : List ℚ), (∀ sp ∈ spans, sp ∈ comparisonSpans) →
      ∀ st : List ComparisonEntry × CostParams,
        (∀ e ∈ st.1, EntryOk W e) → CostParamsNonneg st.2 →
        ∀ e ∈ (spans.foldl (comparisonStep s W bd) st).1, EntryOk W e := by
  intro spans
  induction spans with
  | nil => intro _ st h1 _; exact h1
  | cons sp rest ih =>
    intro hmem st h1 h2
    have hstep := comparisonStep_ok s W bd hs hW st sp
      (hmem sp (List.mem_cons_self sp rest)) h1 h2
    exact ih (fun x hx => hmem x (List.mem_cons_of_mem sp hx)) _ hstep.1 hstep.2

theorem comparisons_foldl_length (s : ℚ → ℚ) (W bd : ℚ) :
    ∀ (spans : List ℚ) (st : List ComparisonEntry × CostParams),
      ((spans.foldl (comparisonStep s W bd) st).1).length = st.1.length + spans.length := by
  intro spans
  induction spans with
  | nil => intro st; simp
  | cons sp rest ih =>
    intro st
    rw [List.foldl_cons, ih]
    have hlen : ((comparisonStep s W bd st sp).1).length = st.1.length + 1 := by
      simp [comparisonStep]
    rw [hlen, List.length_cons]
    omega

/-! ## Helper lemmas: the slab-cost interpolation as a function of thickness -/

theorem chainLast_le : ∀ (l : List CostPoint) (a : CostPoint),
    List.Chain' costLt (a :: l) → a.thickness ≤ (l.getLastD a).thickness
  | [], a, _ => le_refl _
  | b :: l, a, h => by
    rw [List.getLastD_cons]
    have h' := List.chain'_cons.mp h
    exact le_trans (le_of_lt h'.1) (chainLast_le l b h'.2)

theorem interpR_clampBot : ∀ (l : List CostPoint) (a : CostPoint) (x : ℝ),
    x ≤ (a.thickness : ℝ) → interpR (a :: l) x = (a.costPerSf : ℝ)
  | [], a, x, _ => rfl
  | b :: l, a, x, hx => by
    rw [interpR, if_pos hx]

theorem interpR_continuous : ∀ (tbl : List CostPoint),
    List.Chain' costLt tbl → Continuous (interpR tbl)
  | [], _ => by
    simpa [interpR] using continuous_const
  | [p], _ => by
    have : interpR [p] = fun _ : ℝ => (p.costPerSf : ℝ) := rfl
    rw [this]
    exact continuous_const
  | p :: q :: rest, h => by
    obtain ⟨hpq, htailc⟩ := List.chain'_cons.mp h
    have hpq' : (p.thickness : ℝ) < (q.thickness : ℝ) := by exact_mod_cast hpq
    have hne : (q.thickness : ℝ) - (p.thickness : ℝ) ≠ 0 := by linarith
    have htail : Continuous (interpR (q :: rest)) := interpR_continuous (q :: rest) htailc
    have haff : Continuous (fun x : ℝ => (p.costPerSf : ℝ) +
        ((q.costPerSf : ℝ) - (p.costPerSf : ℝ)) * (x - (p.thickness : ℝ)) /
          ((q.thickness : ℝ) - (p.thickness : ℝ))) :=
      continuous_const.add
        (((continuous_const.mul (continuous_id.sub continuous_const)).div_const _))
    have hinner : Continuous (fun x : ℝ =>
        if x ≤ (q.thickness : ℝ) then
          (p.costPerSf : ℝ) +
            ((q.costPerSf : ℝ) - (p.costPerSf : ℝ)) * (x - (p.thickness : ℝ)) /
              ((q.thickness : ℝ) - (p.thickness : ℝ))
        else interpR (q :: rest) x) := by
      refine Continuous.if_le haff htail continuous_id continuous_const ?_
      intro x hx
      rw [hx, interpR_clampBot (rest) q (q.thickness : ℝ) (le_refl _)]
      field_simp
    have houter : Continuous (fun x : ℝ =>
        if x ≤ (p.thickness : ℝ) then (p.costPerSf : ℝ)
        else if x ≤ (q.thickness : ℝ) then
          (p.costPerSf : ℝ) +
            ((q.costPerSf : ℝ) - (p.costPerSf : ℝ)) * (x - (p.thickness : ℝ)) /
              ((q.thickness : ℝ) - (p.thickness : ℝ))
        else interpR (q :: rest) x) := by
      refine Continuous.if_le continuous_const hinner continuous_id continuous_const ?_
      intro x hx
      rw [hx, if_pos hpq'.le]
      field_simp
    exact houter

theorem interpR_monotone : ∀ (tbl : List CostPoint),
    List.Chain' costLt tbl → List.Chain' costUp tbl → Monotone (interpR tbl)
  | [], _, _ => monotone_const
  | [p], _, _ => monotone_const
  | p :: q :: rest, h, hc => by
    obtain ⟨hpq, htailc⟩ := List.chain'_cons.mp h
    obtain ⟨hcq, htailcost⟩ := List.chain'_cons.mp hc
    have hpq' : (p.thickness : ℝ) < (q.thickness : ℝ) := by exact_mod_cast hpq
    have hD : (0 : ℝ) < (q.thickness : ℝ) - (p.thickness : ℝ) := by linarith
    have hA : (0 : ℝ) ≤ (q.costPerSf : ℝ) - (p.costPerSf : ℝ) := by
      have : (p.costPerSf : ℝ) ≤ (q.costPerSf : ℝ) := by exact_mod_cast hcq
      linarith
    have hpcqc : (p.costPerSf : ℝ) ≤ (q.costPerSf : ℝ) := by exact_mod_cast hcq
    have htail : Monotone (interpR (q :: rest)) :=
      interpR_monotone (q :: rest) htailc htailcost
    have htailLB : ∀ y : ℝ, (q.thickness : ℝ) ≤ y →
        (q.costPerSf : ℝ) ≤ interpR (q :: rest) y := by
      intro y hy
      have h2 := htail hy
      rwa [interpR_clampBot rest q (q.thickness : ℝ) (le_refl _)] at h2
    intro x y hxy
    show interpR (p :: q :: rest) x ≤ interpR (p :: q :: rest) y
    rw [interpR, interpR]
    by_cases hx1 : x ≤ (p.thickness : ℝ)
    · rw [if_pos hx1]
      by_cases hy1 : y ≤ (p.thickness : ℝ)
      · rw [if_pos hy1]
      · rw [if_neg hy1]
        by_cases hy2 : y ≤ (q.thickness : ℝ)
        · rw [if_pos hy2]
          have hnum : (0 : ℝ) ≤
              ((q.costPerSf : ℝ) - (p.costPerSf : ℝ)) * (y - (p.thickness : ℝ)) /
                ((q.thickness : ℝ) - (p.thickness : ℝ)) :=
            div_nonneg (mul_nonneg hA (by linarith [not_le.mp hy1])) hD.le
          linarith
        · rw [if_neg hy2]
          have := htailLB y (le_of_lt (not_le.mp hy2))
          linarith
    · rw [if_neg hx1]
      have hy1 : ¬ y ≤ (p.thickness : ℝ) := fun hy => hx1 (le_trans hxy hy)
      rw [if_neg hy1]
      by_cases hx2 : x ≤ (q.thickness : ℝ)
      · rw [if_pos hx2]
        by_cases hy2 : y ≤ (q.thickness : ℝ)
        · rw [if_pos hy2]
          have hmul : ((q.costPerSf : ℝ) - (p.costPerSf : ℝ)) * (x - (p.thickness : ℝ)) ≤
              ((q.costPerSf : ℝ) - (p.costPerSf : ℝ)) * (y - (p.thickness : ℝ)) :=
            mul_le_mul_of_nonneg_left (by linarith) hA
          have hdiv := (div_le_div_iff_of_pos_right hD).mpr hmul
          linarith [hdiv]
        · rw [if_neg hy2]
          have hbound : ((q.costPerSf : ℝ) - (p.costPerSf : ℝ)) * (x - (p.thickness : ℝ)) ≤
              ((q.costPerSf : ℝ) - (p.costPerSf : ℝ)) *
                ((q.thickness : ℝ) - (p.thickness : ℝ)) :=
            mul_le_mul_of_nonneg_left (by linarith) hA
          have hdiv := (div_le_div_iff_of_pos_right hD).mpr hbound
          have hcancel : ((q.costPerSf : ℝ) - (p.costPerSf : ℝ)) *
              ((q.thickness : ℝ) - (p.thickness : ℝ)) /
                ((q.thickness : ℝ) - (p.thickness : ℝ)) =
              (q.costPerSf : ℝ) - (p.costPerSf : ℝ) :=
            mul_div_cancel_right₀ _ hD.ne'
          rw [hcancel] at hdiv
          have := htailLB y (le_of_lt (not_le.mp hy2))
          linarith [hdiv]
      · rw [if_neg hx2]
        have hy2 : ¬ y ≤ (q.thickness : ℝ) := fun hy => hx2 (le_trans hxy hy)
        rw [if_neg hy2]
        exact htail hxy

theorem findBase_interpR : ∀ (rest : List CostPoint) (p q : CostPoint) (dflt t : ℚ),
    List.Chain' costLt (p :: q :: rest) →
    ((findBaseSlabCost dflt (p :: q :: rest) t).getD dflt : ℝ) =
      interpR (p :: q :: rest) (t : ℝ) := by
  intro rest
  induction rest with
  | nil =>
    intro p q dflt t h
    obtain ⟨hpq, -⟩ := List.chain'_cons.mp h
    have hpqR : (p.thickness : ℝ) < (q.thickness : ℝ) := by exact_mod_cast hpq
    have hF : (findBaseSlabCost dflt [p, q] t).getD dflt =
        (if t ≤ p.thickness then p.costPerSf
         else if q.thickness ≤ t then q.costPerSf
         else (bracketScan [p, q] t).getD dflt) := rfl
    rw [hF]
    by_cases h1 : t ≤ p.thickness
    · have h1R : (t : ℝ) ≤ (p.thickness : ℝ) := by exact_mod_cast h1
      rw [if_pos h1]
      conv_rhs => rw [interpR]
      rw [if_pos h1R]
    · have h1R : ¬ ((t : ℝ) ≤ (p.thickness : ℝ)) := fun hc => h1 (by exact_mod_cast hc)
      rw [if_neg h1]
      conv_rhs => rw [interpR]
      rw [if_neg h1R]
      by_cases h2 : q.thickness ≤ t
      · rw [if_pos h2]
        by_cases h3 : t ≤ q.thickness
        · have ht : t = q.thickness := le_antisymm h3 h2
          subst ht
          rw [if_pos (le_refl ((q.thickness : ℝ)))]
          have hD' : (q.thickness : ℝ) - (p.thickness : ℝ) ≠ 0 :=
            sub_ne_zero.mpr (ne_of_gt hpqR)
          rw [mul_div_cancel_right₀ _ hD']
          ring
        · have h3R : ¬ ((t : ℝ) ≤ (q.thickness : ℝ)) := fun hc => h3 (by exact_mod_cast hc)
          rw [if_neg h3R]
          rfl
      · have h2' : t ≤ q.thickness := (not_le.mp h2).le
        have h2R : (t : ℝ) ≤ (q.thickness : ℝ) := by exact_mod_cast h2'
        rw [if_neg h2]
        have hb : bracketScan [p, q] t = some (p.costPerSf +
            (q.costPerSf - p.costPerSf) * (t - p.thickness) /
              (q.thickness - p.thickness)) := by
          rw [bracketScan, if_pos ⟨(not_le.mp h1).le, h2'⟩]
        rw [hb, Option.getD_some, if_pos h2R]
        push_cast
        ring
  | cons r rest' ih =>
    intro p q dflt t h
    obtain ⟨hpq, htail⟩ := List.chain'_cons.mp h
    obtain ⟨hqr, htail2⟩ := List.chain'_cons.mp htail
    have hlast : q.thickness < (rest'.getLastD r).thickness :=
      lt_of_lt_of_le hqr (chainLast_le rest' r htail2)
    have hIH := ih q r dflt t htail
    have hF : (findBaseSlabCost dflt (p :: q :: r :: rest') t).getD dflt =
        (if t ≤ p.thickness then p.costPerSf
         else if (rest'.getLastD r).thickness ≤ t then (rest'.getLastD r).costPerSf
         else (bracketScan (p :: q :: r :: rest') t).getD dflt) := by
      simp only [findBaseSlabCost, Option.getD_some, List.getLastD_cons]
    have hF' : (findBaseSlabCost dflt (q :: r :: rest') t).getD dflt =
        (if t ≤ q.thickness then q.costPerSf
         else if (rest'.getLastD r).thickness ≤ t then (rest'.getLastD r).costPerSf
         else (bracketScan (q :: r :: rest') t).getD dflt) := by
      simp only [findBaseSlabCost, Option.getD_some, List.getLastD_cons]
    rw [hF]
    by_cases h1 : t ≤ p.thickness
    · have h1R : (t : ℝ) ≤ (p.thickness : ℝ) := by exact_mod_cast h1
      rw [if_pos h1]
      conv_rhs => rw [interpR]
      rw [if_pos h1R]
    · have h1R : ¬ ((t : ℝ) ≤ (p.thickness : ℝ)) := fun hc => h1 (by exact_mod_cast hc)
      rw [if_neg h1]
      conv_rhs => rw [interpR]
      rw [if_neg h1R]
      by_cases h2 : (rest'.getLastD r).thickness ≤ t
      · rw [if_pos h2]
        have hqt : q.thickness < t := lt_of_lt_of_le hlast h2
        have hqtR : ¬ ((t : ℝ) ≤ (q.thickness : ℝ)) :=
          fun hc => absurd (by exact_mod_cast hc : t ≤ q.thickness) (not_le.mpr hqt)
        rw [if_neg hqtR, ← hIH, hF', if_neg (not_le.mpr hqt), if_pos h2]
      · rw [if_neg h2]
        by_cases h3 : t ≤ q.thickness
        · have h3R : (t : ℝ) ≤ (q.thickness : ℝ) := by exact_mod_cast h3
          have hb : bracketScan (p :: q :: r :: rest') t = some (p.costPerSf +
              (q.costPerSf - p.costPerSf) * (t - p.thickness) /
                (q.thickness - p.thickness)) := by
            rw [bracketScan, if_pos ⟨(not_le.mp h1).le, h3⟩]
          rw [hb, Option.getD_some, if_pos h3R]
          push_cast
          ring
        · have h3R : ¬ ((t : ℝ) ≤ (q.thickness : ℝ)) := fun hc => h3 (by exact_mod_cast hc)
          have hb : bracketScan (p :: q :: r :: rest') t =
              bracketScan (q :: r :: rest') t := by
            rw [bracketScan, if_neg (fun hc => h3 hc.2)]
          rw [hb, if_neg h3R, ← hIH, hF', if_neg h3, if_neg h2]

/-! ## Helper facts: a concrete feasible flat-plate grid point -/

theorem fpPointFeasible :
    flatPlateChecksOk ratSqrt 30 7000 15.5 0.6 0.6 = true := by decide

theorem fpPointMem :
    ((7000 : ℚ), (15.5 : ℚ), (0.6 : ℚ), (0.6 : ℚ)) ∈ flatPlateGrid 30 := by
  unfold flatPlateGrid
  refine List.mem_flatMap.mpr ⟨7000, by decide, ?_⟩
  refine List.mem_flatMap.mpr ⟨15.5, by decide, ?_⟩
  refine List.mem_flatMap.mpr ⟨0.6, by decide, ?_⟩
  exact List.mem_map.mpr ⟨0.6, by decide, rfl⟩

theorem updateBest_isSome {β : Type} (cost : β → ℚ) (best : Option β) (d : β) :
    (updateBest cost best d).isSome = true := by
  cases best with
  | none => rfl
  | some b =>
    simp only [updateBest]
    split <;> rfl

theorem mildSteel_governing_pos (s : ℚ → ℚ) (t sp fc fy ss Mcr d : ℚ) (ht : 0 < t) :
    0 < (calculateTotalMildSteel s t sp fc fy ss Mcr d).governing := by
  have h1 : (0 : ℚ) < 0.0018 * t * 12 := by positivity
  unfold calculateTotalMildSteel
  exact lt_of_lt_of_le h1 (le_max_left _ _)

theorem effectiveMildSteelCost_of_falsy {c : Option ℚ} (h : c = some 0 ∨ c = none) :
    effectiveMildSteelCost c = 1.20 := by
  rcases h with rfl | rfl <;> rfl

theorem flatPlateDesignOf_mildSteel_pos (s : ℚ → ℚ) (L W : ℚ) (cp : CostParams)
    (sorted : List CostPoint) (fc t br er : ℚ) (hL : 0 < L) (hW : 0 < W) (ht : 0 < t)
    (hmild : cp.mildSteelCostPerLb = some 0 ∨ cp.mildSteelCostPerLb = none) :
    0 < (flatPlateDesignOf s L W cp sorted fc t br er).costBreakdown.mildSteel := by
  unfold flatPlateDesignOf
  dsimp only
  rw [effectiveMildSteelCost_of_falsy hmild]
  exact mul_pos (mul_pos hL hW)
    (mul_pos (div_pos (mul_pos
        (div_pos (mildSteel_governing_pos _ _ _ _ _ _ _ _ ht) (by norm_num))
        (by norm_num)) (by norm_num)) (by norm_num))

theorem oneWayDesignOf_mildSteel_pos (s : ℚ → ℚ) (L W : ℚ) (cp : CostParams)
    (sorted : List CostPoint) (fc bd bw st : ℚ) (fd : FeasiblePrestress)
    (hL : 0 < L) (hW : 0 < W) (hst : 0 < st) (hbd : 0 ≤ bd) (hbw : 0 ≤ bw)
    (hmild : cp.mildSteelCostPerLb = some 0 ∨ cp.mildSteelCostPerLb = none) :
    0 < (oneWayDesignOf s L W cp sorted fc bd bw st fd).costBreakdown.mildSteel := by
  unfold oneWayDesignOf
  dsimp only
  rw [effectiveMildSteelCost_of_falsy hmild]
  refine mul_pos (add_pos_of_pos_of_nonneg
    (mul_pos (div_pos (mul_pos (mildSteel_governing_pos _ _ _ _ _ _ _ _ hst)
      (by norm_num)) (by norm_num)) (mul_pos hL hW)) ?_) (by norm_num)
  have hL' : (0 : ℚ) ≤ L := hL.le
  have hst' : (0 : ℚ) ≤ st := hst.le
  positivity

theorem twoWayDesignOf_mildSteel_pos (s : ℚ → ℚ) (L W : ℚ) (cp : CostParams)
    (sorted : List CostPoint) (fc bd bw st : ℚ) (fd : FeasiblePrestress)
    (hL : 0 < L) (hW : 0 < W) (hst : 0 < st) (hbd : 0 ≤ bd) (hbw : 0 ≤ bw)
    (hmild : cp.mildSteelCostPerLb = some 0 ∨ cp.mildSteelCostPerLb = none) :
    0 < (twoWayDesignOf s L W cp sorted fc bd bw st fd).costBreakdown.mildSteel := by
  unfold twoWayDesignOf
  dsimp only
  rw [effectiveMildSteelCost_of_falsy hmild]
  refine mul_pos (add_pos_of_pos_of_nonneg
    (mul_pos (mul_pos (div_pos (mul_pos (mildSteel_governing_pos _ _ _ _ _ _ _ _ hst)
      (by norm_num)) (by norm_num)) (mul_pos hL hW)) (by norm_num)) ?_) (by norm_num)
  have hL' : (0 : ℚ) ≤ L := hL.le
  have hW' : (0 : ℚ) ≤ W := hW.le
  have hst' : (0 : ℚ) ≤ st := hst.le
  positivity

/-! ## Claim theorems: the two stress-formula sets and the local checks -/

/-- C1: the two stress-fiber formula sets disagree in sign convention.
Whenever the eccentric-prestress bending term `P·e/St` differs from the load
bending term `M/St`, the top-fiber stress of the search
(`-P/A + P·e/St - M/St`, every screening site of `optimization.ts`) differs
from the top-fiber stress of `analyze_stresses.js`
(`-P/A - P·e/St + M/St`): the two middle terms enter with opposite signs. -/
theorem claim_C1 (P A e St M : ℚ) (h : P * e / St ≠ M / St) :
    fiberStressTop P A e St M ≠ analyzeFTop P A e St M := by
  unfold fiberStressTop analyzeFTop
  intro heq
  apply h
  linarith

/-- Witness for C1 at `P = 56250`, `A = 120`, `e = 2.4`, `St = 200`,
`M = 100000` (the spec's §8 scenario with a load moment that does not equal
the balanced value `P·e`). -/
theorem claim_C1_witness :
    (56250 : ℚ) * 2.4 / 200 ≠ (100000 : ℚ) / 200 ∧
    fiberStressTop 56250 120 2.4 200 100000 ≠ analyzeFTop 56250 120 2.4 200 100000 :=
  ⟨by norm_num, claim_C1 56250 120 2.4 200 100000 (by norm_num)⟩

/-- C2: the flat-plate stress screen passes iff each of the four fiber
stresses — top and bottom at transfer (initial force `Pi`, dead moment `Md`,
limits `fci_*`) and top and bottom at service (effective force `Pe`, service
moment `Md + 0.3·Ml`, limits `fc_comp_total`/`fc_tens`) — lies within the
symmetric interval `[-compressionLimit, +tensionLimit]` of its load stage.
(`flatPlateChecksOk` invokes this screen with
`limits = getStressLimits s fc (0.7·fc)` and
`props = getSectionProperties thickness`.) -/
theorem claim_C2 (limits : StressLimits) (props : SectionProps) (Pi Pe e Md Ml : ℚ) :
    flatPlateStressScreen limits props Pi Pe e Md Ml = true ↔
      ((-limits.fci_comp ≤ fiberStressTop Pi props.A e props.St Md ∧
          fiberStressTop Pi props.A e props.St Md ≤ limits.fci_tens) ∧
        (-limits.fci_comp ≤ fiberStressBot Pi props.A e props.Sb Md ∧
          fiberStressBot Pi props.A e props.Sb Md ≤ limits.fci_tens) ∧
        (-limits.fc_comp_total ≤ fiberStressTop Pe props.A e props.St (Md + 0.3 * Ml) ∧
          fiberStressTop Pe props.A e props.St (Md + 0.3 * Ml) ≤ limits.fc_tens) ∧
        (-limits.fc_comp_total ≤ fiberStressBot Pe props.A e props.Sb (Md + 0.3 * Ml) ∧
          fiberStressBot Pe props.A e props.Sb (Md + 0.3 * Ml) ≤ limits.fc_tens)) := by
  simp only [flatPlateStressScreen, stressScreen, fiberOk, Bool.and_eq_true,
    Bool.not_eq_true', decide_eq_false_iff_not, not_lt]
  tauto

/-- C3: a returned `DesignResult` always carries an all-true `checks` map.
Every retained candidate of the three searches is constructed with the
literal `{ moment := true, …, camber := true }` object, and the retained
best only ever holds such candidates. -/
theorem claim_C3 (s : ℚ → ℚ) (bayLength bayWidth beamDepth : ℚ) (cp : CostParams) :
    ((optimizeFlatPlate s bayLength bayWidth cp).1.elim True
        fun d => d.checks = ChecksMap.allTrue) ∧
    ((optimizeOneWayBeam s bayLength bayWidth beamDepth cp).1.elim True
        fun d => d.checks = ChecksMap.allTrue) ∧
    ((optimizeTwoWayBeam s bayLength bayWidth beamDepth cp).1.elim True
        fun d => d.checks = ChecksMap.allTrue) := by
  refine ⟨?_, ?_, ?_⟩
  · exact searchFold_best_pred _ _ _ _ _ trivial
      (fun b t a _ hb => updateBest_elim _ _ b _ hb rfl)
  · refine searchFold_best_pred _ _ _ _ _ trivial (fun b t a _ hb => ?_)
    cases h : oneWayEval s bayLength bayWidth a.1 a.2.1 a.2.2.1 a.2.2.2 with
    | none => simpa [h] using hb
    | some fd => simpa [h] using updateBest_elim _ _ b _ hb rfl
  · refine searchFold_best_pred _ _ _ _ _ trivial (fun b t a _ hb => ?_)
    cases h : twoWayEval s bayLength bayWidth a.1 a.2.1 a.2.2.1 a.2.2.2 with
    | none => simpa [h] using hb
    | some fd => simpa [h] using updateBest_elim _ _ b _ hb rfl

/-- C4: in the flat-plate moment-capacity check, the resistance factor is
`0.9` when the tension-face strain is at least `0.005`, is the linear
interpolation between `0.65` and `0.9` for strain in `[0.002, 0.005)`, the
candidate is rejected (`none`) for strain below `0.002`, and a non-rejected
candidate passes iff `φ·Mn ≥ Mt`. -/
theorem claim_C4 (fc Aps fps d Mt : ℚ) :
    (0.005 ≤ flatPlateStrain fc Aps fps d →
      phiFactor (flatPlateStrain fc Aps fps d) = some 0.9) ∧
    (0.002 ≤ flatPlateStrain fc Aps fps d → flatPlateStrain fc Aps fps d < 0.005 →
      phiFactor (flatPlateStrain fc Aps fps d) =
        some (0.65 + (flatPlateStrain fc Aps fps d - 0.002) * (0.9 - 0.65) /
          (0.005 - 0.002))) ∧
    (flatPlateStrain fc Aps fps d < 0.002 → flatPlateMomentCheck fc Aps fps d Mt = none) ∧
    (∀ phi, phiFactor (flatPlateStrain fc Aps fps d) = some phi →
      (flatPlateMomentCheck fc Aps fps d Mt = some true ↔
        Mt ≤ phi * (Aps * fps * (d - flatPlateStressBlockDepth fc Aps fps / 2)))) := by
  refine ⟨fun h => by simp [phiFactor, h], fun h1 h2 => ?_, fun h => ?_, fun phi hphi => ?_⟩
  · simp [phiFactor, h1, not_le.mpr h2]
  · have h5 : flatPlateStrain fc Aps fps d < 0.005 :=
      lt_trans h (by norm_num)
    have hn : phiFactor (flatPlateStrain fc Aps fps d) = none := by
      simp [phiFactor, not_le.mpr h, not_le.mpr h5]
    simp [flatPlateMomentCheck, hn]
  · simp [flatPlateMomentCheck, hphi, not_lt]

/-- Witness for C4 at `fc = 5000`, `Aps = 1`, `fps = 51000`, `d = 3`,
`Mt = 0`: the strain is `0.0042`, in the transition band, and the theorem's
interpolation branch applies. -/
theorem claim_C4_witness :
    ((0.002 : ℚ) ≤ flatPlateStrain 5000 1 51000 3 ∧
      flatPlateStrain 5000 1 51000 3 < 0.005) ∧
    phiFactor (flatPlateStrain 5000 1 51000 3) =
      some (0.65 + (flatPlateStrain 5000 1 51000 3 - 0.002) * (0.9 - 0.65) /
        (0.005 - 0.002)) := by
  have h1 : (0.002 : ℚ) ≤ flatPlateStrain 5000 1 51000 3 := by
    norm_num [flatPlateStrain, flatPlateStressBlockDepth]
  have h2 : flatPlateStrain 5000 1 51000 3 < 0.005 := by
    norm_num [flatPlateStrain, flatPlateStressBlockDepth]
  exact ⟨⟨h1, h2⟩, (claim_C4 5000 1 51000 3 0).2.1 h1 h2⟩

theorem optimizeFlatPlate_fst (s : ℚ → ℚ) (L W : ℚ) (cp : CostParams) :
    (optimizeFlatPlate s L W cp).1 =
      (searchFold (fun p : ℚ × ℚ × ℚ × ℚ => flatPlateChecksOk s L p.1 p.2.1 p.2.2.1 p.2.2.2)
        (fun best sorted p => updateBest FlatPlateDesign.totalCost best
          (flatPlateDesignOf s L W cp sorted p.1 p.2.1 p.2.2.1 p.2.2.2))
        (none, cp.ptSlabCosts) (flatPlateGrid L)).1 := rfl

theorem optimizeFlatPlate_snd_tab (s : ℚ → ℚ) (L W : ℚ) (cp : CostParams) :
    (optimizeFlatPlate s L W cp).2.ptSlabCosts =
      (searchFold (fun p : ℚ × ℚ × ℚ × ℚ => flatPlateChecksOk s L p.1 p.2.1 p.2.2.1 p.2.2.2)
        (fun best sorted p => updateBest FlatPlateDesign.totalCost best
          (flatPlateDesignOf s L W cp sorted p.1 p.2.1 p.2.2.1 p.2.2.2))
        (none, cp.ptSlabCosts) (flatPlateGrid L)).2 := rfl

/-- C5 counterexample: the flat-plate search mutates its `costParams` input.
At bay 30 ft × 24 ft with an unsorted two-point `ptSlabCosts` table, a grid
point passes every check, so the cost block's in-place
`costParams.ptSlabCosts.sort(…)` reorders the caller's array: the
cost-parameters state after the call differs from the record passed in. -/
theorem claim_C5_counterexample :
    (optimizeFlatPlate ratSqrt 30 24 sampleCostParams).2 ≠ sampleCostParams := by
  intro h
  have htab : (optimizeFlatPlate ratSqrt 30 24 sampleCostParams).2.ptSlabCosts =
      sortByThickness sampleCostParams.ptSlabCosts := by
    rw [optimizeFlatPlate_snd_tab]
    exact searchFold_table_of_ok _ _ (flatPlateGrid 30) _ fpPointMem fpPointFeasible _
  rw [h] at htab
  exact absurd htab (by decide)

/-- C5 corrected: the searches do mutate their input — but only by stably
sorting the `ptSlabCosts` array in place by thickness (once any candidate
reaches the costing step).  For each of the three searches: the final
`ptSlabCosts` is either the original array or its stable sort by thickness,
every other field of the record is unchanged, the sort preserves the
multiset of entries, and a table that is already sorted by thickness is
returned entirely unchanged. -/
theorem claim_C5_amended :
    (∀ (s : ℚ → ℚ) (L W : ℚ) (cp : CostParams),
      ((optimizeFlatPlate s L W cp).2.ptSlabCosts = cp.ptSlabCosts ∨
        (optimizeFlatPlate s L W cp).2.ptSlabCosts = sortByThickness cp.ptSlabCosts) ∧
      (optimizeFlatPlate s L W cp).2.ptFormworkCostPerSf = cp.ptFormworkCostPerSf ∧
      (optimizeFlatPlate s L W cp).2.beamFormingCostPerCf = cp.beamFormingCostPerCf ∧
      (optimizeFlatPlate s L W cp).2.beamPouringCostPerCf = cp.beamPouringCostPerCf ∧
      (optimizeFlatPlate s L W cp).2.ptStrandCostPerLb = cp.ptStrandCostPerLb ∧
      (optimizeFlatPlate s L W cp).2.mildSteelCostPerLb = cp.mildSteelCostPerLb) ∧
    (∀ (s : ℚ → ℚ) (L W bd : ℚ) (cp : CostParams),
      ((optimizeOneWayBeam s L W bd cp).2.ptSlabCosts = cp.ptSlabCosts ∨
        (optimizeOneWayBeam s L W bd cp).2.ptSlabCosts = sortByThickness cp.ptSlabCosts) ∧
      ((optimizeTwoWayBeam s L W bd cp).2.ptSlabCosts = cp.ptSlabCosts ∨
        (optimizeTwoWayBeam s L W bd cp).2.ptSlabCosts = sortByThickness cp.ptSlabCosts)) ∧
    (∀ l : List CostPoint, (sortByThickness l).Perm l) ∧
    (∀ (s : ℚ → ℚ) (L W : ℚ) (cp : CostParams), cp.ptSlabCosts.Sorted costLe →
      (optimizeFlatPlate s L W cp).2 = cp) ∧
    (∀ (s : ℚ → ℚ) (L W bd : ℚ) (cp : CostParams), cp.ptSlabCosts.Sorted costLe →
      (optimizeOneWayBeam s L W bd cp).2 = cp ∧ (optimizeTwoWayBeam s L W bd cp).2 = cp) := by
  have htab : ∀ {α β : Type} (ok : α → Bool)
      (upd : Option β → List CostPoint → α → Option β) (l : List α) (b : Option β)
      (tab : List CostPoint),
      (searchFold ok upd (b, tab) l).2 = tab ∨
        (searchFold ok upd (b, tab) l).2 = sortByThickness tab :=
    fun ok upd l b tab => searchFold_table ok upd l (b, tab)
  have hsortfix : ∀ {α β : Type} (ok : α → Bool)
      (upd : Option β → List CostPoint → α → Option β) (l : List α) (b : Option β)
      (tab : List CostPoint), tab.Sorted costLe →
      (searchFold ok upd (b, tab) l).2 = tab := by
    intro α β ok upd l b tab hs
    rcases searchFold_table ok upd l (b, tab) with h | h
    · exact h
    · rw [h, sortByThickness_of_sorted hs]
  refine ⟨fun s L W cp => ⟨htab _ _ _ _ _, rfl, rfl, rfl, rfl, rfl⟩,
    fun s L W bd cp => ⟨htab _ _ _ _ _, htab _ _ _ _ _⟩,
    sortByThickness_perm, fun s L W cp hs => ?_, fun s L W bd cp hs => ⟨?_, ?_⟩⟩
  · show ({ cp with
      ptSlabCosts := (searchFold _ _ (none, cp.ptSlabCosts) (flatPlateGrid L)).2 } : CostParams) = cp
    rw [hsortfix _ _ _ _ _ hs]
  · show ({ cp with
      ptSlabCosts := (searchFold _ _ (none, cp.ptSlabCosts) (oneWayGrid L W)).2 } : CostParams) = cp
    rw [hsortfix _ _ _ _ _ hs]
  · show ({ cp with
      ptSlabCosts := (searchFold _ _ (none, cp.ptSlabCosts) (twoWayGrid L W)).2 } : CostParams) = cp
    rw [hsortfix _ _ _ _ _ hs]

/-- Witness for C5 (amended): at a concrete already-sorted table, the
flat-plate search returns the cost-parameters record unchanged. -/
theorem claim_C5_amended_witness :
    (sortedParams sampleCostParams).ptSlabCosts.Sorted costLe ∧
    (optimizeFlatPlate ratSqrt 30 24 (sortedParams sampleCostParams)).2 =
      sortedParams sampleCostParams := by
  have hs : (sortedParams sampleCostParams).ptSlabCosts.Sorted costLe := by decide
  exact ⟨hs, (claim_C5_amended.2.2.2.1) ratSqrt 30 24 (sortedParams sampleCostParams) hs⟩

/-- C6 counterexample: a one-point cost table (fewer than the required two
points) does not fail fast — the interpolation block silently returns the
single point's unit cost (`some 25`), clamped, with no error of any kind. -/
theorem claim_C6_counterexample :
    findBaseSlabCost 20 [{ thickness := 6, costPerSf := 25 }] 8 = some 25 := by decide

/-- C6 amended: the slab-cost interpolation performs no input validation.
A one-point table silently returns that point's unit cost for every
thickness; an empty table aborts with a JavaScript `TypeError` from reading
`.thickness` of `undefined` (modelled `none`), which is a runtime type
error, not a descriptive input-contract error; non-finite values are never
checked. -/
theorem claim_C6_amended :
    (∀ (dflt t : ℚ) (p : CostPoint), findBaseSlabCost dflt [p] t = some p.costPerSf) ∧
    (∀ dflt t : ℚ, findBaseSlabCost dflt [] t = none) := by
  constructor
  · intro dflt t p
    simp only [findBaseSlabCost, List.getLastD_nil, Option.some.injEq]
    split
    · rfl
    · rename_i h
      rw [if_pos (le_of_lt (lt_of_not_le h))]
  · intro dflt t
    rfl

/-- C10: a supplied mild-steel unit cost of exactly `0` is treated the same
as an absent one — `costParams.mildSteelCostPerLb || 1.20` yields the `1.20`
fallback for both — so in each of the three searches any returned candidate
computed under a falsy mild-steel cost has a strictly positive mild-steel
cost component (the governing steel is always positive); concretely, the
flat-plate search at 30 ft × 24 ft with `mildSteelCostPerLb = 0` does return
a candidate. -/
theorem claim_C10 :
    (effectiveMildSteelCost (some 0) = 1.20 ∧ effectiveMildSteelCost none = 1.20) ∧
    (∀ (s : ℚ → ℚ) (L W bd : ℚ) (cp : CostParams), 0 < L → 0 < W →
      (cp.mildSteelCostPerLb = some 0 ∨ cp.mildSteelCostPerLb = none) →
      ((optimizeFlatPlate s L W cp).1.elim True
          fun d => 0 < d.costBreakdown.mildSteel) ∧
      ((optimizeOneWayBeam s L W bd cp).1.elim True
          fun d => 0 < d.costBreakdown.mildSteel) ∧
      ((optimizeTwoWayBeam s L W bd cp).1.elim True
          fun d => 0 < d.costBreakdown.mildSteel)) ∧
    (optimizeFlatPlate ratSqrt 30 24 sampleCostParams).1.isSome = true := by
  refine ⟨⟨rfl, rfl⟩, fun s L W bd cp hL hW hmild => ⟨?_, ?_, ?_⟩, ?_⟩
  · refine searchFold_best_pred _ _ _ _ _ trivial (fun b t a ha hb => ?_)
    have hbnd := flatPlateGrid_bounds ha
    exact updateBest_elim _ _ b _ hb
      (flatPlateDesignOf_mildSteel_pos s L W cp t a.1 a.2.1 a.2.2.1 a.2.2.2 hL hW
        (by linarith [hbnd.2.1]) hmild)
  · refine searchFold_best_pred _ _ _ _ _ trivial (fun b t a ha hb => ?_)
    have hbnd := oneWayGrid_bounds ha
    cases h : oneWayEval s L W a.1 a.2.1 a.2.2.1 a.2.2.2 with
    | none => simpa [h] using hb
    | some fd =>
      simpa [h] using updateBest_elim _ _ b _ hb
        (oneWayDesignOf_mildSteel_pos s L W cp t a.1 a.2.1 a.2.2.1 a.2.2.2 fd hL hW
          (by linarith [hbnd.2.2.2.2]) (by linarith [hbnd.2.1])
          (by linarith [hbnd.2.2.1]) hmild)
  · refine searchFold_best_pred _ _ _ _ _ trivial (fun b t a ha hb => ?_)
    have hbnd := twoWayGrid_bounds ha
    cases h : twoWayEval s L W a.1 a.2.1 a.2.2.1 a.2.2.2 with
    | none => simpa [h] using hb
    | some fd =>
      simpa [h] using updateBest_elim _ _ b _ hb
        (twoWayDesignOf_mildSteel_pos s L W cp t a.1 a.2.1 a.2.2.1 a.2.2.2 fd hL hW
          (by linarith [hbnd.2.2.2.2]) (by linarith [hbnd.2.1])
          (by linarith [hbnd.2.2.1]) hmild)
  · rw [optimizeFlatPlate_fst]
    exact searchFold_isSome _ _ (flatPlateGrid 30) _ fpPointMem fpPointFeasible
      (fun b t a _ => updateBest_isSome _ b _)
      (fun b t a _ => updateBest_isSome _ b _) _

/-- Witness for C10 at the concrete falsy-cost record `sampleCostParams`
(30 ft × 24 ft bay): the universally quantified part of the claim theorem
instantiates with its hypotheses discharged. -/
theorem claim_C10_witness :
    (0 : ℚ) < 30 ∧ (0 : ℚ) < 24 ∧
    (sampleCostParams.mildSteelCostPerLb = some 0 ∨
      sampleCostParams.mildSteelCostPerLb = none) ∧
    (((optimizeFlatPlate ratSqrt 30 24 sampleCostParams).1.elim True
        fun d => 0 < d.costBreakdown.mildSteel) ∧
      ((optimizeOneWayBeam ratSqrt 30 24 30 sampleCostParams).1.elim True
        fun d => 0 < d.costBreakdown.mildSteel) ∧
      ((optimizeTwoWayBeam ratSqrt 30 24 30 sampleCostParams).1.elim True
        fun d => 0 < d.costBreakdown.mildSteel)) := by
  have h3 : sampleCostParams.mildSteelCostPerLb = some 0 ∨
      sampleCostParams.mildSteelCostPerLb = none := Or.inl rfl
  exact ⟨by norm_num, by norm_num, h3,
    claim_C10.2.1 ratSqrt 30 24 30 sampleCostParams (by norm_num) (by norm_num) h3⟩

/-- C9 counterexample: at realistic flat-plate inputs (10-inch slab, 30-foot
span, 5000 psi concrete, Grade 60, cracking moment `7.5·√fc·I/yt`), the
`bonded` value `calculateTotalMildSteel` returns is strictly less than the
`tempShrinkage` value it returns — the code never floors `bonded` at the
temperature/shrinkage requirement (only `twoWay` is floored).  The `bonded`
and `tempShrinkage` fields do not depend on the square-root oracle. -/
theorem claim_C9_counterexample :
    (calculateTotalMildSteel ratSqrt 10 30 5000 60000 0
        (7.5 * ratSqrt 5000 * 1000 / 5) 8.5).bonded <
      (calculateTotalMildSteel ratSqrt 10 30 5000 60000 0
        (7.5 * ratSqrt 5000 * 1000 / 5) 8.5).tempShrinkage := by decide

/-- C9 amended: the returned `bonded` field is exactly
`Mcr / (1.2·fy·d)` with no floor (so it can be smaller than the
temperature/shrinkage requirement); it is the returned `governing` value that
is never less than the temperature/shrinkage requirement. -/
theorem claim_C9_amended (s : ℚ → ℚ) (thickness span fc fy serviceStress Mcr d : ℚ) :
    (calculateTotalMildSteel s thickness span fc fy serviceStress Mcr d).bonded =
        Mcr / (1.2 * fy * d) ∧
      (calculateTotalMildSteel s thickness span fc fy serviceStress Mcr d).tempShrinkage ≤
        (calculateTotalMildSteel s thickness span fc fy serviceStress Mcr d).governing :=
  ⟨rfl, le_max_left _ _⟩

/-- C8: for every optimization run with a non-negative square-root oracle,
valid (non-negative) cost parameters and a bay width of at least 3 ft, the
comparison table has exactly ten entries (one per reference span) and every
per-span unit cost in it is a non-negative rational — never null or NaN —
equal to a design's total cost divided by the `span · bayWidth` plan area when
the system is feasible at that span and to the numeric sentinel `999` when it
is not (`EntryOk`). -/
theorem claim_C8 (s : ℚ → ℚ) (L W bd : ℚ) (cp : CostParams)
    (hs : ∀ x, 0 ≤ s x) (hW : 3 ≤ W) (hcp : CostParamsNonneg cp) :
    (computeOptimization s L W bd cp).1.comparisons.length = 10 ∧
      ∀ e ∈ (computeOptimization s L W bd cp).1.comparisons, EntryOk W e := by
  have hcomp : (computeOptimization s L W bd cp).1.comparisons =
      (comparisonSpans.foldl (comparisonStep s W bd)
        ([], (optimizeTwoWayBeam s L W bd
          (optimizeOneWayBeam s L W bd (optimizeFlatPlate s L W cp).2).2).2)).1 := rfl
  have hinit : CostParamsNonneg
      (optimizeTwoWayBeam s L W bd
        (optimizeOneWayBeam s L W bd (optimizeFlatPlate s L W cp).2).2).2 :=
    optimizeTwoWayBeam_snd_nonneg _ _ _ _ _
      (optimizeOneWayBeam_snd_nonneg _ _ _ _ _ (optimizeFlatPlate_snd_nonneg _ _ _ _ hcp))
  constructor
  · rw [hcomp, comparisons_foldl_length]
    rfl
  · intro e he
    rw [hcomp] at he
    exact comparisons_foldl_ok s W bd hs hW comparisonSpans (fun _ h => h) _
      (fun x hx => absurd hx (List.not_mem_nil x)) hinit e he

/-- Witness for C8 at the concrete oracle `ratSqrt` and cost record
`sampleCostParams` (30 ft × 24 ft bay, 30 in beam depth): the hypotheses hold
and the claim theorem instantiates. -/
theorem claim_C8_witness :
    (∀ x, 0 ≤ ratSqrt x) ∧ (3 : ℚ) ≤ 24 ∧ CostParamsNonneg sampleCostParams ∧
      ((computeOptimization ratSqrt 30 24 30 sampleCostParams).1.comparisons.length = 10 ∧
        ∀ e ∈ (computeOptimization ratSqrt 30 24 30 sampleCostParams).1.comparisons,
          EntryOk 24 e) := by
  have h1 : ∀ x, 0 ≤ ratSqrt x := ratSqrt_nonneg
  have h3 : CostParamsNonneg sampleCostParams := by
    refine ⟨by decide, by norm_num [sampleCostParams], by norm_num [sampleCostParams],
      by norm_num [sampleCostParams], by norm_num [sampleCostParams], ?_⟩
    intro x hx
    have hx' : some (0 : ℚ) = some x := hx
    injection hx' with hx''
    rw [← hx'']
  exact ⟨h1, by norm_num, h3,
    claim_C8 ratSqrt 30 24 30 sampleCostParams h1 (by norm_num) h3⟩

/-- C7 counterexample: a table that is valid in the claim's sense — two
points, strictly ascending in thickness, finite rational values — on which the
interpolated slab base cost is NOT monotonically non-decreasing within the
table's range: with unit costs 30 at 4 in and 20 at 8 in, the interpolation
returns 30 at thickness 4 and 20 at thickness 8.  The claim's validity
precondition says nothing about the unit costs being non-decreasing, so
monotonicity fails for cost-decreasing tables. -/
theorem claim_C7_counterexample :
    List.Chain' costLt
      [{ thickness := 4, costPerSf := 30 }, { thickness := 8, costPerSf := 20 }] ∧
    ¬((findBaseSlabCost 20
          [{ thickness := 4, costPerSf := 30 }, { thickness := 8, costPerSf := 20 }]
          4).getD 20 ≤
      (findBaseSlabCost 20
          [{ thickness := 4, costPerSf := 30 }, { thickness := 8, costPerSf := 20 }]
          8).getD 20) := by
  constructor
  · norm_num [List.chain'_cons, List.chain'_singleton, costLt]
  · decide

/-- C7 amended: for every cost table with at least two points, strictly
ascending thicknesses AND non-decreasing unit costs, the interpolated slab
base cost agrees at every rational thickness with the real-valued clamped
piecewise-linear function `interpR` of the table (bridge), that function is
continuous on ℝ, the program's interpolation is monotonically non-decreasing
in thickness, and it is constant at the boundary unit cost below the first
point and above the last point.  (Relative to the original claim, the
monotonicity part additionally requires the unit costs to be non-decreasing;
without that the counterexample above refutes it.) -/
theorem claim_C7_amended (dflt : ℚ) (p q : CostPoint) (rest : List CostPoint)
    (hth : List.Chain' costLt (p :: q :: rest))
    (hcost : List.Chain' costUp (p :: q :: rest)) :
    (∀ t : ℚ, ((findBaseSlabCost dflt (p :: q :: rest) t).getD dflt : ℝ) =
        interpR (p :: q :: rest) (t : ℝ)) ∧
    Continuous (interpR (p :: q :: rest)) ∧
    (∀ t1 t2 : ℚ, t1 ≤ t2 →
      (findBaseSlabCost dflt (p :: q :: rest) t1).getD dflt ≤
        (findBaseSlabCost dflt (p :: q :: rest) t2).getD dflt) ∧
    (∀ t : ℚ, t ≤ p.thickness →
      (findBaseSlabCost dflt (p :: q :: rest) t).getD dflt = p.costPerSf) ∧
    (∀ t : ℚ, ((q :: rest).getLastD p).thickness ≤ t →
      (findBaseSlabCost dflt (p :: q :: rest) t).getD dflt =
        ((q :: rest).getLastD p).costPerSf) := by
  obtain ⟨hpq, htailc⟩ := List.chain'_cons.mp hth
  have hbridge : ∀ t : ℚ, ((findBaseSlabCost dflt (p :: q :: rest) t).getD dflt : ℝ) =
      interpR (p :: q :: rest) (t : ℝ) := fun t => findBase_interpR rest p q dflt t hth
  refine ⟨hbridge, interpR_continuous _ hth, ?_, ?_, ?_⟩
  · intro t1 t2 h12
    have hm := interpR_monotone _ hth hcost
      (show ((t1 : ℚ) : ℝ) ≤ ((t2 : ℚ) : ℝ) by exact_mod_cast h12)
    rw [← hbridge t1, ← hbridge t2] at hm
    exact_mod_cast hm
  · intro t ht
    show (findBaseSlabCost dflt (p :: q :: rest) t).getD dflt = p.costPerSf
    have hF : (findBaseSlabCost dflt (p :: q :: rest) t).getD dflt =
        (if t ≤ p.thickness then p.costPerSf
         else if ((q :: rest).getLastD p).thickness ≤ t then
           ((q :: rest).getLastD p).costPerSf
         else (bracketScan (p :: q :: rest) t).getD dflt) := by
      simp only [findBaseSlabCost, Option.getD_some]
    rw [hF, if_pos ht]
  · intro t ht
    have hlast : p.thickness < ((q :: rest).getLastD p).thickness := by
      rw [List.getLastD_cons]
      exact lt_of_lt_of_le hpq (chainLast_le rest q htailc)
    have h1 : ¬ t ≤ p.thickness := fun hc => absurd (lt_of_le_of_lt hc hlast)
      (not_lt.mpr ht)
    have hF : (findBaseSlabCost dflt (p :: q :: rest) t).getD dflt =
        (if t ≤ p.thickness then p.costPerSf
         else if ((q :: rest).getLastD p).thickness ≤ t then
           ((q :: rest).getLastD p).costPerSf
         else (bracketScan (p :: q :: rest) t).getD dflt) := by
      simp only [findBaseSlabCost, Option.getD_some]
    rw [hF, if_neg h1, if_pos ht]

/-- Witness for C7 at the concrete valid, cost-non-decreasing table
`[{4 in, $20}, {8 in, $30}]` with default 20: the chain hypotheses hold by
computation and the amended theorem instantiates. -/
theorem claim_C7_amended_witness :
    List.Chain' costLt (interpBot :: interpTop :: []) ∧
    List.Chain' costUp (interpBot :: interpTop :: []) ∧
    ((∀ t : ℚ, ((findBaseSlabCost 20 (interpBot :: interpTop :: []) t).getD 20 : ℝ) =
        interpR (interpBot :: interpTop :: []) (t : ℝ)) ∧
      Continuous (interpR (interpBot :: interpTop :: [])) ∧
      (∀ t1 t2 : ℚ, t1 ≤ t2 →
        (findBaseSlabCost 20 (interpBot :: interpTop :: []) t1).getD 20 ≤
          (findBaseSlabCost 20 (interpBot :: interpTop :: []) t2).getD 20) ∧
      (∀ t : ℚ, t ≤ interpBot.thickness →
        (findBaseSlabCost 20 (interpBot :: interpTop :: []) t).getD 20 =
          interpBot.costPerSf) ∧
      (∀ t : ℚ, ((interpTop :: []).getLastD interpBot).thickness ≤ t →
        (findBaseSlabCost 20 (interpBot :: interpTop :: []) t).getD 20 =
          ((interpTop :: []).getLastD interpBot).costPerSf)) := by
  have hth : List.Chain' costLt (interpBot :: interpTop :: []) := by
    norm_num [List.chain'_cons, List.chain'_singleton, costLt, interpBot, interpTop]
  have hcost : List.Chain' costUp (interpBot :: interpTop :: []) := by
    norm_num [List.chain'_cons, List.chain'_singleton, costUp, interpBot, interpTop]
  exact ⟨hth, hcost, claim_C7_amended 20 interpBot interpTop [] hth hcost⟩

end PTOpt
